import Mathlib

/-!
Verification development for `swat/dataframe.py`: a pandas DataFrame subclass
carrying SAS metadata (column specs, table attributes, By-group state) plus the
module-level helpers `split_format`, `concat` and the By-group reshaper.

The Python code is shallowly embedded: dataframes become explicit records of
named columns and index levels, Python dicts become insertion-ordered
association lists with Python's update semantics, and operations that can raise
return `Except PyErr`.
-/

namespace Swat

/-- Python runtime errors that the embedded code can raise. -/
inductive PyErr where
  | keyError (k : String)
  | typeError
  | matchError
  | fuel
deriving DecidableEq

/-- A scalar value as stored in a cell or in an attribute dictionary.
Mirrors the type families dispatched on by `dtype_from_var`
(int64/int32/float/text/binary/datetime/date/time); `pynone` is Python's
`None`, `obj` any other object (unrecognized by `dtype_from_var`). -/
inductive Value where
  | int (n : Int)
  | int32 (n : Int)
  | float (n : Int)
  | nan
  | str (s : String)
  | bytes (b : List Nat)
  | datetime (t : Nat)
  | date (t : Nat)
  | time (t : Nat)
  | pynone
  | obj (tag : Nat)
deriving DecidableEq

/-- `dtype_from_var` from dataframe.py: guess the CAS data type from a value;
`none` models the `TypeError` raised for unrecognized types. -/
def dtype_from_var : Value → Option String
  | .int _ => some "int64"
  | .int32 _ => some "int32"
  | .float _ => some "double"
  | .nan => some "double"
  | .str _ => some "varchar"
  | .bytes _ => some "varbinary"
  | .datetime _ => some "datetime"
  | .date _ => some "date"
  | .time _ => some "time"
  | .pynone => none
  | .obj _ => none

/-- Python truthiness of a value (used by `if not self.attrs.get('ByVar1')`). -/
def Value.truthy : Value → Bool
  | .int n => decide (n ≠ 0)
  | .int32 n => decide (n ≠ 0)
  | .float n => decide (n ≠ 0)
  | .nan => true
  | .str s => !s.isEmpty
  | .bytes b => decide (b ≠ [])
  | .datetime _ => true
  | .date _ => true
  | .time _ => true
  | .pynone => false
  | .obj _ => true

/-- Truthiness of `dict.get(k)`: `None` (absent key) is falsy. -/
def truthyOpt : Option Value → Bool
  | none => false
  | some v => v.truthy

/-- View a value as a string (By-variable names are used as column names, so
the model requires them to be strings). -/
def Value.asStr : Value → Option String
  | .str s => some s
  | _ => none

/-- A Python dict with string keys: insertion-ordered association list. -/
abbrev SDict (α : Type) : Type := List (String × α)

namespace SDict

variable {α : Type}

/-- `d[k]` / `d.get(k)`. -/
def get? : SDict α → String → Option α
  | [], _ => none
  | (k', v) :: t, k => if k' = k then some v else get? t k

/-- `k in d`. -/
def contains (d : SDict α) (k : String) : Bool :=
  (d.get? k).isSome

/-- `d[k] = v`: replace in place if the key exists, else append (dict order). -/
def set : SDict α → String → α → SDict α
  | [], k, v => [(k, v)]
  | (k', v') :: t, k, v => if k' = k then (k', v) :: t else (k', v') :: set t k v

/-- `d.pop(k, None)`: drop the entry for `k` if present. -/
def erase : SDict α → String → SDict α
  | [], _ => []
  | (k', v') :: t, k => if k' = k then t else (k', v') :: erase t k

/-- `d.setdefault(k, v)`. -/
def setdefault (d : SDict α) (k : String) (v : α) : SDict α :=
  if d.contains k then d else d ++ [(k, v)]

/-- `d.update(e)`: merge `e` into `d`, later entries overwriting earlier. -/
def updateWith (d e : SDict α) : SDict α :=
  e.foldl (fun acc p => acc.set p.1 p.2) d

/-- Length of the underlying entry list (used only as recursion fuel). -/
def size (d : SDict α) : Nat :=
  List.length d

end SDict

/-!  ### The format parser `split_format`

Source:
```
if not fmt: return SASFormat(False, '', 0, 0)
parts = re.match(r'(\$)?(\w*?)(\d*)\.(\d*)', fmt).groups()
```
The regex is embedded operationally: the optional leading dollar, a lazy run of
word characters, a greedy (backtracking) run of digits, a literal dot, then a
greedy run of digits.  `re.match` returning `None` (no literal dot reachable)
makes `.groups()` raise `AttributeError`; that failure is modelled as `none`.
-/

/-- The result record (the `SASFormat` named tuple). -/
structure SASFormat where
  ischar : Bool
  name : String
  width : Nat
  ndec : Nat
deriving DecidableEq

/-- Membership in the regex class `\w`. -/
def isWordChar (c : Char) : Bool :=
  c.isAlphanum || c = '_'

/-- `int(s)` on a digit string, with `'' and int('') or 0` collapsing to 0. -/
def natOfDigits (l : List Char) : Nat :=
  l.foldl (fun a c => a * 10 + (c.toNat - '0'.toNat)) 0

/-- Greedy search for the literal dot: the largest index `k' ≤ k` at which `s`
holds a `'.'` (the backtracking of the greedy `(\d*)` before the dot). -/
def findDotBack (s : List Char) : Nat → Option Nat
  | 0 => if s[0]? = some '.' then some 0 else none
  | k + 1 => if s[k + 1]? = some '.' then some (k + 1) else findDotBack s k

/-- Match `(\d*)\.(\d*)` at the head of `s`; returns the two digit groups and
the unconsumed rest. -/
def matchNumDot (s : List Char) : Option (List Char × List Char × List Char) :=
  let run := s.takeWhile Char.isDigit
  match findDotBack s run.length with
  | some k =>
      some (s.take k, (s.drop (k + 1)).takeWhile Char.isDigit,
            (s.drop (k + 1)).dropWhile Char.isDigit)
  | none => none

/-- Match `(\w*?)(\d*)\.(\d*)` at the head of `s`: the lazy name group grows
one word character at a time only while the numeric tail fails to match. -/
def matchFrom : List Char → Option (List Char × List Char × List Char × List Char)
  | [] =>
    match matchNumDot [] with
    | some (w, dec, rest) => some ([], w, dec, rest)
    | none => none
  | c :: t =>
    match matchNumDot (c :: t) with
    | some (w, dec, rest) => some ([], w, dec, rest)
    | none =>
      if isWordChar c then
        (matchFrom t).map (fun r => (c :: r.1, r.2.1, r.2.2.1, r.2.2.2))
      else none

/-- `split_format` from dataframe.py.  `none` models the `AttributeError`
raised when `re.match` finds no match on a non-empty input. -/
def split_format (fmt : String) : Option SASFormat :=
  if fmt = "" then some ⟨false, "", 0, 0⟩
  else
    let ischar : Bool := fmt.data.head? = some '$'
    let s1 := if ischar then fmt.data.tail else fmt.data
    match matchFrom s1 with
    | none => none
    | some (nm, w, dec, _) => some ⟨ischar, String.mk nm, natOfDigits w, natOfDigits dec⟩

/-!  ### The tabular data model

A pandas DataFrame is embedded as a record of named index levels and named,
ordered columns.  Only the operations the source uses are modelled:
column selection (`df[list]`), scalar column assignment (`df[name] = value`),
`insert`, `pop`, `iloc[:, :n]`, `reset_index(level=..., drop=True)`,
`set_index(Series, append=...)`, `reorder_levels` and `pd.concat`.
-/

/-- The underlying tabular data: row count, index levels (name, data) and
ordered named columns. -/
structure PDataFrame where
  nrows : Nat
  index : List (Option String × List Value)
  cols : List (String × List Value)
deriving DecidableEq

namespace PDataFrame

/-- First column entry with the given name. -/
def lookupCol : List (String × List Value) → String → Option (String × List Value)
  | [], _ => none
  | c :: t, k => if c.1 = k then some c else lookupCol t k

/-- `list(df.columns)`. -/
def colNames (f : PDataFrame) : List String :=
  f.cols.map Prod.fst

/-- `df[names]`: select columns by name, in the order given. -/
def getCols (f : PDataFrame) (names : List String) : PDataFrame :=
  { f with cols := names.filterMap (fun n => (lookupCol f.cols n).map (fun c => (n, c.2))) }

/-- `df[k] = vals`: replace data of every column named `k`, or append a new
column at the end. -/
def setColList (f : PDataFrame) (k : String) (vals : List Value) : PDataFrame :=
  if (lookupCol f.cols k).isSome then
    { f with cols := f.cols.map (fun c => if c.1 = k then (c.1, vals) else c) }
  else
    { f with cols := f.cols ++ [(k, vals)] }

/-- `df[k] = v` with a scalar `v`: broadcast over all rows. -/
def setCol (f : PDataFrame) (k : String) (v : Value) : PDataFrame :=
  f.setColList k (List.replicate f.nrows v)

/-- `df.insert(loc, k, vals)`. -/
def insertCol (f : PDataFrame) (loc : Nat) (k : String) (vals : List Value) : PDataFrame :=
  { f with cols := f.cols.take loc ++ (k, vals) :: f.cols.drop loc }

/-- `df.iloc[:, :n]`: keep only the first `n` columns. -/
def ilocColsTo (f : PDataFrame) (n : Nat) : PDataFrame :=
  { f with cols := f.cols.take n }

/-- `df.reset_index(level=list(range(n)), drop=True)`: drop the first `n`
index levels. -/
def resetIndexDrop (f : PDataFrame) (n : Nat) : PDataFrame :=
  { f with index := f.index.drop n }

/-- `df.set_index(pd.Series([v]*len(df), name=k), append=app)`: a new constant
index level, appended after the existing levels or replacing them. -/
def setIndexConst (f : PDataFrame) (k : String) (v : Value) (app : Bool) : PDataFrame :=
  let lvl := (some k, List.replicate f.nrows v)
  { f with index := if app then f.index ++ [lvl] else [lvl] }

/-- `df.reorder_levels(perm)`. -/
def reorderLevels (f : PDataFrame) (perm : List Nat) : PDataFrame :=
  { f with index := perm.filterMap (fun i => f.index[i]?) }

end PDataFrame

/-- First-seen-insertion-order union of column name lists (the
`columns[col] = True` ordered-dict idiom in `concat`). -/
def insertSeen (acc : List String) (c : String) : List String :=
  if c ∈ acc then acc else acc ++ [c]

/-- Union of many column lists, first seen first. -/
def firstSeenUnion (ls : List (List String)) : List String :=
  ls.foldl (fun a l => l.foldl insertSeen a) []

/-- `pd.concat(objs)` (outer join on columns, default axis): the union of the
columns in first-seen order, each column holding the stacked data, missing
blocks filled with NaN; the result gets a fresh default index. -/
def pdConcat (fs : List PDataFrame) : PDataFrame :=
  let names := firstSeenUnion (fs.map PDataFrame.colNames)
  { nrows := (fs.map PDataFrame.nrows).sum
    index := []
    cols := names.map (fun n =>
      (n, (fs.map (fun f =>
            match PDataFrame.lookupCol f.cols n with
            | some c => c.2
            | none => List.replicate f.nrows Value.nan)).flatten)) }

/-!  ### Column metadata -/

/-- `SASColumnSpec` from dataframe.py.  `label`, `dtype` and `format` keep the
`None`-possibility of the Python attributes (`a2u(None) is None`). -/
structure SASColumnSpec where
  name : String
  label : Option String := none
  dtype : Option String := none
  width : Nat := 0
  format : Option String := some ""
  size : Nat × Nat := (1, 1)
  attrs : SDict Value := []
deriving DecidableEq

/-- `SASColumnSpec(col)`: the default spec built from just a column name. -/
def defaultSpec (c : String) : SASColumnSpec :=
  { name := c }

/-!  ### SASDataFrame -/

/-- `SASDataFrame`: a `PDataFrame` plus the five `_metadata` fields
(`colinfo`, `name`, `label`, `title`, `attrs`) and the formatter (modelled as
an opaque tag). -/
structure SASDataFrame where
  frame : PDataFrame
  colinfo : SDict SASColumnSpec := []
  name : Option String := none
  label : Option String := none
  title : Option String := none
  attrs : SDict Value := []
  formatter : Nat := 0
deriving DecidableEq

namespace SASDataFrame

/-- The `SASDataFrame.__init__` path used by `concat`: keep only colinfo
entries whose column actually exists in the data (iterated in column order). -/
def make (frame : PDataFrame) (name label title : Option String) (formatter : Nat)
    (attrs : SDict Value) (colinfo : SDict SASColumnSpec) : SASDataFrame :=
  { frame := frame
    colinfo := frame.colNames.filterMap (fun c => (colinfo.get? c).map (fun s => (c, s)))
    name := name
    label := label
    title := title
    attrs := attrs
    formatter := formatter }

/-- `df[names]` on a `SASDataFrame`: the result carries the five metadata
fields, dict-valued ones as copies (`SASDataFrame.__getitem__`). -/
def getItemCols (df : SASDataFrame) (names : List String) : SASDataFrame :=
  { df with frame := df.frame.getCols names }

/-- The backfill loop shared by `__setitem__` and `insert`: every column
without a colinfo entry receives `SASColumnSpec(col)`. -/
def backfillColinfo (names : List String) (ci : SDict SASColumnSpec) : SDict SASColumnSpec :=
  names.foldl (fun acc c => if acc.contains c then acc else acc ++ [(c, defaultSpec c)]) ci

/-- `SASDataFrame.__setitem__` with a list value. -/
def setItem (df : SASDataFrame) (k : String) (vals : List Value) : SASDataFrame :=
  let f := df.frame.setColList k vals
  { df with frame := f, colinfo := backfillColinfo f.colNames df.colinfo }

/-- `SASDataFrame.__setitem__` with a scalar value (broadcast). -/
def setItemScalar (df : SASDataFrame) (k : String) (v : Value) : SASDataFrame :=
  let f := df.frame.setCol k v
  { df with frame := f, colinfo := backfillColinfo f.colNames df.colinfo }

/-- `SASDataFrame.insert(loc, k, vals)`. -/
def insertAt (df : SASDataFrame) (loc : Nat) (k : String) (vals : List Value) : SASDataFrame :=
  let f := df.frame.insertCol loc k vals
  { df with frame := f, colinfo := backfillColinfo f.colNames df.colinfo }

/-- `SASDataFrame.pop(k, *args)`: always drops the colinfo entry first, then
delegates to `pandas.DataFrame.pop`.  The pandas method's signature is
`pop(self, item)` — it accepts no default — so a supplied extra argument makes
the delegated call raise `TypeError`; a missing column raises `KeyError`.
Returns the (possibly error) result together with the mutated frame. -/
def popCol (df : SASDataFrame) (k : String) (hasDefault : Bool) :
    Except PyErr (List Value) × SASDataFrame :=
  let df1 := { df with colinfo := df.colinfo.erase k }
  if hasDefault then (.error .typeError, df1)
  else
    match PDataFrame.lookupCol df1.frame.cols k with
    | some c =>
        (.ok c.2,
          { df1 with frame :=
              { df1.frame with cols := df1.frame.cols.filter (fun e => !decide (e.1 = k)) } })
    | none => (.error (.keyError k), df1)

end SASDataFrame

/-!  ### The By-group reshaper -/

/-- Python's `some_string == v` where `v` is a dict value: true only when the
value is that exact string. -/
def valEqStrOpt (o : Option Value) (s : String) : Bool :=
  match o with
  | some (.str t) => decide (t = s)
  | _ => false

/-- The `label=` argument taken from `attrs.get(bykey + 'Label')`. -/
def labelOf : Option Value → Option String
  | some (.str s) => some s
  | _ => none

/-- `sasfmt = attrs.get(bykey + 'Format'); sasfmtwidth = split_format(sasfmt).width`:
a missing key gives width 0; a malformed (dot-less) format string raises, a
non-string value raises `TypeError` inside `re.match`. -/
def fmtOf : Option Value → Except PyErr (Option String × Nat)
  | none => .ok (none, 0)
  | some (.str s) =>
    match split_format s with
    | some r => .ok (some s, r.width)
    | none => .error .matchError
  | some _ => .error .typeError

/-- Result of the `ByVar1..ByVarN` scan loop: the (name, raw value, formatted
value) triples, the count of currently materialized columns, and the attrs
dict after the `attrs.pop(byvar + 'Formatted', None)` side effects. -/
structure ScanOut where
  byinfo : List (String × Value × Value)
  numbycols : Nat
  attrs : SDict Value
deriving DecidableEq

/-- One iteration of the while loop enumerating `ByVar1`, `ByVar2`, ….
`attrs[byvar + 'Value']` and `attrs[byvar + 'ValueFormatted']` are plain
subscripts, so a missing key is a `KeyError`. -/
def scanStep (attrs : SDict Value) (acc : List (String × Value × Value)) (nb : Nat)
    (i : Nat) : Nat → Except PyErr ScanOut
  | 0 => .error .fuel
  | fuel + 1 =>
    let bykey := "ByVar" ++ toString i
    match attrs.get? bykey with
    | none => .ok ⟨acc, nb, attrs⟩
    | some nameV =>
      match nameV.asStr with
      | none => .error .typeError
      | some byname =>
        match attrs.get? (bykey ++ "Value") with
        | none => .error (.keyError (bykey ++ "Value"))
        | some byval =>
          match attrs.get? (bykey ++ "ValueFormatted") with
          | none => .error (.keyError (bykey ++ "ValueFormatted"))
          | some byvalfmt =>
            let attrs' := attrs.erase (bykey ++ "Formatted")
            let nb' := if valEqStrOpt (attrs'.get? "ByGroupColumns") "both" then nb + 2 else nb + 1
            scanStep attrs' (acc ++ [(byname, byval, byvalfmt)]) nb' (i + 1) fuel

/-- The full scan; the fuel bound `size + 1` dominates the number of distinct
`ByVar{i}` keys the dict can hold. -/
def scanByVars (attrs : SDict Value) : Except PyErr ScanOut :=
  scanStep attrs [] 0 1 (attrs.size + 1)

/-- One iteration of the column-materialization loop of `reshape_bygroups`
(the `bygroup_as_index == False` branch).  `byname` is reassigned in the raw
branch when it collides with a data column, so the `'both'` formatted name is
built on top of the already-suffixed raw name, with no further collision
check. -/
def buildColumnsStep (req fsfx csfx : String) (allcolnames : List String)
    (byname : String) (byval byvalfmt : Value) (i : Nat) (dframe : SASDataFrame)
    (bycols : List String) : Except PyErr (SASDataFrame × List String) := do
  let bykey := "ByVar" ++ toString i
  let bylabel := labelOf (dframe.attrs.get? (bykey ++ "Label"))
  let fw ← fmtOf (dframe.attrs.get? (bykey ++ "Format"))
  let step1 ←
    if req = "both" ∨ req = "raw" then do
      let byname1 := if byname ∈ allcolnames then byname ++ csfx else byname
      let d := dframe.setItemScalar byname1 byval
      let dt ← match dtype_from_var byval with
        | some dt => Except.ok dt
        | none => Except.error PyErr.typeError
      let spec1 : SASColumnSpec := ⟨byname1, bylabel, some dt, fw.2, fw.1, (1, 1), []⟩
      let d := { d with colinfo := d.colinfo.set byname1 spec1 }
      Except.ok (d, bycols ++ [byname1], byname1)
    else Except.ok (dframe, bycols, byname)
  if req = "both" ∨ req = "formatted" then do
    let byname2 :=
      if req = "both" then step1.2.2 ++ fsfx
      else if req = "formatted" ∧ byname ∈ allcolnames then byname ++ csfx
      else byname
    let d := step1.1.setItemScalar byname2 byvalfmt
    let spec2 : SASColumnSpec := ⟨byname2, bylabel, some "varchar", fw.2, fw.1, (1, 1), []⟩
    let d := { d with colinfo := d.colinfo.set byname2 spec2 }
    Except.ok (d, step1.2.1 ++ [byname2])
  else Except.ok (step1.1, step1.2.1)

/-- The full column-materialization loop. -/
def buildColumnsLoop (req fsfx csfx : String) (allcolnames : List String) :
    List (String × Value × Value) → Nat → SASDataFrame → List String →
    Except PyErr (SASDataFrame × List String)
  | [], _, dframe, bycols => .ok (dframe, bycols)
  | (byname, byval, byvalfmt) :: rest, i, dframe, bycols =>
    match buildColumnsStep req fsfx csfx allcolnames byname byval byvalfmt i dframe bycols with
    | .error e => .error e
    | .ok st => buildColumnsLoop req fsfx csfx allcolnames rest (i + 1) st.1 st.2

/-- The whole `bygroup_as_index == False` branch: run the loop, then move the
new By columns to the front via `dframe[bycols + allcolnames]`. -/
def buildColumns (req fsfx csfx : String) (dframe : SASDataFrame)
    (byinfo : List (String × Value × Value)) : Except PyErr SASDataFrame :=
  match buildColumnsLoop req fsfx csfx dframe.frame.colNames byinfo 1 dframe [] with
  | .error e => .error e
  | .ok r => .ok (r.1.getItemCols (r.2 ++ dframe.frame.colNames))

/-- One iteration of the index-materialization loop
(`bygroup_as_index == True`).  No collision check is performed here; only
`'both'` adds the formatted suffix. -/
def buildIndexStep (req fsfx : String) (byname : String) (byval byvalfmt : Value)
    (i : Nat) (dframe : SASDataFrame) (appendlevels : Bool) (bylevels : Nat) :
    Except PyErr (SASDataFrame × Bool × Nat) := do
  let bykey := "ByVar" ++ toString i
  let bylabel := labelOf (dframe.attrs.get? (bykey ++ "Label"))
  let fw ← fmtOf (dframe.attrs.get? (bykey ++ "Format"))
  let step1 ←
    if req = "both" ∨ req = "raw" then do
      let d := { dframe with frame := dframe.frame.setIndexConst byname byval appendlevels }
      let dt ← match dtype_from_var byval with
        | some dt => Except.ok dt
        | none => Except.error PyErr.typeError
      let spec1 : SASColumnSpec := ⟨byname, bylabel, some dt, fw.2, fw.1, (1, 1), []⟩
      let d := { d with colinfo := d.colinfo.set byname spec1 }
      Except.ok (d, true, bylevels + 1)
    else Except.ok (dframe, appendlevels, bylevels)
  if req = "both" ∨ req = "formatted" then do
    let byname2 := if req = "both" then byname ++ fsfx else byname
    let d := { step1.1 with frame := step1.1.frame.setIndexConst byname2 byvalfmt step1.2.1 }
    let spec2 : SASColumnSpec := ⟨byname2, bylabel, some "varchar", fw.2, fw.1, (1, 1), []⟩
    let d := { d with colinfo := d.colinfo.set byname2 spec2 }
    Except.ok (d, true, step1.2.2 + 1)
  else Except.ok step1

/-- The full index-materialization loop. -/
def buildIndexLoop (req fsfx : String) :
    List (String × Value × Value) → Nat → SASDataFrame → Bool → Nat →
    Except PyErr (SASDataFrame × Bool × Nat)
  | [], _, dframe, appendlevels, bylevels => .ok (dframe, appendlevels, bylevels)
  | (byname, byval, byvalfmt) :: rest, i, dframe, appendlevels, bylevels =>
    match buildIndexStep req fsfx byname byval byvalfmt i dframe appendlevels bylevels with
    | .error e => .error e
    | .ok st => buildIndexLoop req fsfx rest (i + 1) st.1 st.2.1 st.2.2

/-- `len([x for x in dframe.index.names if x])`: count the truthy level names. -/
def countNamed (idx : List (Option String × List Value)) : Nat :=
  (idx.filter (fun l => match l.1 with
    | some s => !s.isEmpty
    | none => false)).length

/-- The whole `bygroup_as_index == True` branch, including the final
`reorder_levels` that moves the new levels in front of the pre-existing ones. -/
def buildIndex (req fsfx : String) (dframe : SASDataFrame)
    (byinfo : List (String × Value × Value)) : Except PyErr SASDataFrame :=
  match buildIndexLoop req fsfx byinfo 1 dframe (countNamed dframe.frame.index > 0) 0 with
  | .error e => .error e
  | .ok r =>
    if countNamed dframe.frame.index = 0 then .ok r.1
    else .ok { r.1 with frame := r.1.frame.reorderLevels (List.range' (countNamed dframe.frame.index) r.2.2 ++ List.range (countNamed dframe.frame.index)) }

/-- `SASDataFrame.reshape_bygroups`: convert the current By-group
representation (attrs / index levels / data columns) to the requested one. -/
def SASDataFrame.reshape_bygroups (df : SASDataFrame) (bygroup_columns : String)
    (bygroup_as_index : Bool) (bygroup_formatted_suffix bygroup_collision_suffix : String) :
    Except PyErr SASDataFrame :=
  let dframe := df.getItemCols df.frame.colNames
  if !truthyOpt (df.attrs.get? "ByVar1") then .ok dframe
  else
    let attrs := (dframe.attrs.setdefault "ByGroupMode" (Value.str "attributes")).setdefault
      "ByGroupColumns" (Value.str "none")
    let dframe := { dframe with attrs := attrs }
    if valEqStrOpt (attrs.get? "ByGroupColumns") bygroup_columns
        && (valEqStrOpt (attrs.get? "ByGroupMode") "attributes"
            || (bygroup_as_index && valEqStrOpt (attrs.get? "ByGroupMode") "index")
            || (!bygroup_as_index && valEqStrOpt (attrs.get? "ByGroupMode") "columns")) then
      .ok dframe
    else
      match scanByVars attrs with
      | .error e => .error e
      | .ok sres =>
        let frame2 :=
          if valEqStrOpt (sres.attrs.get? "ByGroupMode") "index" then
            dframe.frame.resetIndexDrop sres.numbycols
          else if valEqStrOpt (sres.attrs.get? "ByGroupMode") "columns" then
            dframe.frame.ilocColsTo sres.numbycols
          else dframe.frame
        let dframe := { dframe with frame := frame2, attrs := sres.attrs }
        if bygroup_columns = "none" then
          let attrs2 := (dframe.attrs.set "ByGroupMode" (Value.str "attributes")).set "ByGroupColumns" (Value.str "none")
          .ok { dframe with attrs := attrs2 }
        else
          let dframe := { dframe with attrs := dframe.attrs.set "ByGroupColumns" (Value.str bygroup_columns) }
          if bygroup_as_index then
            let dframe := { dframe with attrs := dframe.attrs.set "ByGroupMode" (Value.str "index") }
            buildIndex bygroup_columns bygroup_formatted_suffix dframe sres.byinfo
          else
            let dframe := { dframe with attrs := dframe.attrs.set "ByGroupMode" (Value.str "columns") }
            buildColumns bygroup_columns bygroup_formatted_suffix bygroup_collision_suffix dframe sres.byinfo

/-!  ### Module-level `concat` -/

/-- An element of the sequence handed to `concat`: either a `SASDataFrame` or
a plain pandas DataFrame. -/
inductive TableLike where
  | sas (df : SASDataFrame)
  | plain (f : PDataFrame)
deriving DecidableEq

/-- The underlying data of either kind of table. -/
def TableLike.toFrame : TableLike → PDataFrame
  | .sas df => df.frame
  | .plain f => f

/-- Extract the `SASDataFrame`s when every element is one. -/
def allSas : List TableLike → Option (List SASDataFrame)
  | [] => some []
  | .sas df :: t => (allSas t).map (fun l => df :: l)
  | .plain _ :: _ => none

/-- The metadata-merging path of `concat` for a non-empty all-SAS sequence:
name/label/title/formatter from the first table, attrs and colinfo unioned
with later entries overwriting, the result re-filtered to the first-seen
union of the column orders. -/
def concatSas (objs : List SASDataFrame) (proto : SASDataFrame) : SASDataFrame :=
  let attrsU := objs.foldl (fun acc df => SDict.updateWith acc df.attrs) []
  let colinfoU := objs.foldl (fun acc df => SDict.updateWith acc df.colinfo) []
  let columns := objs.foldl (fun acc df => df.frame.colNames.foldl insertSeen acc) []
  let made := SASDataFrame.make (pdConcat (objs.map SASDataFrame.frame))
    proto.name proto.label proto.title proto.formatter attrsU colinfoU
  made.getItemCols columns

/-- `swat.dataframe.concat(objs)`: if the first element is not a
`SASDataFrame`, delegate entirely to `pd.concat`; accessing `.attrs`/`.colinfo`
on a later non-SAS element would raise `AttributeError` (modelled as
`typeError` here, the exact exception class being irrelevant). -/
def swat_concat : List TableLike → Except PyErr TableLike
  | [] => .error (.keyError "objs[0]")
  | .plain f :: rest => .ok (.plain (pdConcat ((TableLike.plain f :: rest).map TableLike.toFrame)))
  | .sas proto :: rest =>
    match allSas (TableLike.sas proto :: rest) with
    | some objs => .ok (.sas (concatSas objs proto))
    | none => .error .typeError

/-!  ### Reference-level model of the metadata-copy discipline

`SASDataFrame.__getitem__` copies every dict-valued `_metadata` field
(`selfattr = selfattr.copy()`), and `reshape_bygroups` additionally re-copies
`colinfo` and `attrs` on its working frame before mutating them.  To state
that this makes derived tables alias-free, dicts are lifted into explicit
stores addressed by references; an operation that copies allocates a fresh
cell, and mutation is a store write through a reference. -/

/-- A store of attrs dicts and a store of colinfo dicts. -/
structure Mem where
  attrsStore : List (SDict Value)
  colinfoStore : List (SDict SASColumnSpec)
deriving DecidableEq

/-- Read a store cell, defaulting to the empty dict. -/
def readAt {α : Type} (st : List (SDict α)) (r : Nat) : SDict α :=
  (st[r]?).getD []

/-- Write a store cell. -/
def writeAt {α : Type} (st : List (SDict α)) (r : Nat) (d : SDict α) : List (SDict α) :=
  st.set r d

namespace Mem

/-- Dereference an attrs dict. -/
def readAttrs (m : Mem) (r : Nat) : SDict Value := readAt m.attrsStore r

/-- Dereference a colinfo dict. -/
def readColinfo (m : Mem) (r : Nat) : SDict SASColumnSpec := readAt m.colinfoStore r

/-- Mutate an attrs dict in place. -/
def writeAttrs (m : Mem) (r : Nat) (d : SDict Value) : Mem :=
  { m with attrsStore := writeAt m.attrsStore r d }

/-- Mutate a colinfo dict in place. -/
def writeColinfo (m : Mem) (r : Nat) (d : SDict SASColumnSpec) : Mem :=
  { m with colinfoStore := writeAt m.colinfoStore r d }

/-- `d.copy()` for attrs: a fresh cell holding the given contents. -/
def allocAttrs (m : Mem) (d : SDict Value) : Nat × Mem :=
  (m.attrsStore.length, { m with attrsStore := m.attrsStore ++ [d] })

/-- `d.copy()` for colinfo. -/
def allocColinfo (m : Mem) (d : SDict SASColumnSpec) : Nat × Mem :=
  (m.colinfoStore.length, { m with colinfoStore := m.colinfoStore ++ [d] })

end Mem

/-- A `SASDataFrame` whose dict-valued metadata lives behind references. -/
structure SASDataFrameRef where
  frame : PDataFrame
  colinfoRef : Nat
  attrsRef : Nat
  name : Option String := none
  label : Option String := none
  title : Option String := none
  formatter : Nat := 0
deriving DecidableEq

/-- The value-level view of a referenced frame. -/
def SASDataFrameRef.deref (df : SASDataFrameRef) (m : Mem) : SASDataFrame :=
  { frame := df.frame, colinfo := m.readColinfo df.colinfoRef,
    name := df.name, label := df.label, title := df.title,
    attrs := m.readAttrs df.attrsRef, formatter := df.formatter }

/-- `SASDataFrame.__getitem__` with a column list, at the reference level:
the result's `attrs` and `colinfo` are fresh copies of the parent's. -/
def getItemColsRef (df : SASDataFrameRef) (names : List String) (m : Mem) :
    SASDataFrameRef × Mem :=
  let a := m.allocAttrs (m.readAttrs df.attrsRef)
  let c := a.2.allocColinfo (a.2.readColinfo df.colinfoRef)
  ({ df with frame := df.frame.getCols names, attrsRef := a.1, colinfoRef := c.1 }, c.2)

/-- `reshape_bygroups` at the reference level.  The source first takes
`self[self.columns]` (one copy of each dict), then re-copies `colinfo` and
`attrs`; every later mutation in the method goes through those fresh copies,
so the net store effect is: two allocations per dict, the final contents of
the pure reshape written through the fresh references, and no write to the
parent's cells. -/
def reshape_bygroupsRef (df : SASDataFrameRef) (req : String) (idx : Bool)
    (fsfx csfx : String) (m : Mem) : Except PyErr (SASDataFrameRef × Mem) :=
  let g := getItemColsRef df df.frame.colNames m
  let a := g.2.allocAttrs (g.2.readAttrs g.1.attrsRef)
  let c := a.2.allocColinfo (a.2.readColinfo g.1.colinfoRef)
  match SASDataFrame.reshape_bygroups (df.deref m) req idx fsfx csfx with
  | .error e => .error e
  | .ok r =>
    .ok ({ g.1 with frame := r.frame, attrsRef := a.1, colinfoRef := c.1 },
      (c.2.writeAttrs a.1 r.attrs).writeColinfo c.1 r.colinfo)

/-!  ### Concrete tables used in the closed evaluations below -/

/-- A one-By-variable table in the initial `attributes` state, with a single
data column `A`. -/
def dfRound : SASDataFrame :=
  { frame := ⟨2, [], [("A", [Value.int 1, Value.int 2])]⟩,
    attrs := [("ByVar1", Value.str "Origin"), ("ByVar1Value", Value.str "Asia"),
              ("ByVar1ValueFormatted", Value.str "Asia")] }

/-- A table already in `columns` mode with its raw By column `Origin`
materialized in front of the data column `A`. -/
def dfCols : SASDataFrame :=
  { frame := ⟨2, [], [("Origin", [Value.str "Asia", Value.str "Asia"]),
                      ("A", [Value.int 1, Value.int 2])]⟩,
    attrs := [("ByVar1", Value.str "Origin"), ("ByVar1Value", Value.str "Asia"),
              ("ByVar1ValueFormatted", Value.str "Asia"),
              ("ByGroupMode", Value.str "columns"), ("ByGroupColumns", Value.str "raw")] }

/-- A table whose By variable `X` collides with an existing data column `X`. -/
def dfColl : SASDataFrame :=
  { frame := ⟨1, [], [("X", [Value.int 9]), ("B", [Value.int 7])]⟩,
    attrs := [("ByVar1", Value.str "X"), ("ByVar1Value", Value.int 5),
              ("ByVar1ValueFormatted", Value.str "5")] }

/-- A small table without a column named `x` (for the `pop` behavior). -/
def dfPop : SASDataFrame :=
  { frame := ⟨1, [], [("A", [Value.int 1])]⟩, colinfo := [("A", defaultSpec "A")] }

/-- A two-cell store and a referenced table for the aliasing claims. -/
def memEx : Mem := { attrsStore := [[]], colinfoStore := [[]] }

/-- A referenced table whose metadata lives at cell 0 of each store. -/
def dfRefEx : SASDataFrameRef :=
  { frame := ⟨1, [], [("A", [Value.int 1])]⟩, colinfoRef := 0, attrsRef := 0 }

/-- The referenced table produced by reshaping `dfRefEx` (fresh cells 2). -/
def rExOut : SASDataFrameRef :=
  { frame := ⟨1, [], [("A", [Value.int 1])]⟩, colinfoRef := 2, attrsRef := 2 }

/-- The store after reshaping `dfRefEx`: two copies were allocated per dict
and the results written into the fresh cells. -/
def mExOut : Mem := { attrsStore := [[], [], []], colinfoStore := [[], [], []] }

/-- Concat inputs with columns [A, B] and [B, C] and full colinfo. -/
def dfCatA : SASDataFrame :=
  { frame := ⟨1, [], [("A", [Value.int 1]), ("B", [Value.int 2])]⟩,
    colinfo := [("A", defaultSpec "A"), ("B", defaultSpec "B")], name := some "t1",
    attrs := [("k1", Value.int 1), ("shared", Value.int 10)] }

/-- Second concat input. -/
def dfCatB : SASDataFrame :=
  { frame := ⟨1, [], [("B", [Value.int 3]), ("C", [Value.int 4])]⟩,
    colinfo := [("B", defaultSpec "B"), ("C", defaultSpec "C")], name := some "t2",
    attrs := [("k2", Value.int 2), ("shared", Value.int 20)] }

/-- The value of `dfRound.reshape_bygroups "raw" false "_f" "_by"`: the raw
By column has been materialized in front and the mode updated. -/
def dfMid : SASDataFrame :=
  { frame := ⟨2, [], [("Origin", [Value.str "Asia", Value.str "Asia"]),
                      ("A", [Value.int 1, Value.int 2])]⟩,
    colinfo := [("A", ⟨"A", none, none, 0, some "", (1, 1), []⟩),
                ("Origin", ⟨"Origin", none, some "varchar", 0, none, (1, 1), []⟩)],
    attrs := [("ByVar1", Value.str "Origin"), ("ByVar1Value", Value.str "Asia"),
              ("ByVar1ValueFormatted", Value.str "Asia"),
              ("ByGroupMode", Value.str "columns"), ("ByGroupColumns", Value.str "raw")] }

end Swat

/-!  # Theorems -/

namespace Swat

/-!  ## Dictionary lemmas -/

theorem SDict.get?_set_self {α : Type} (d : SDict α) (k : String) (v : α) :
    (d.set k v).get? k = some v := by
  induction d with
  | nil => simp [SDict.set, SDict.get?]
  | cons p t ih =>
    by_cases h : p.1 = k
    · simp [SDict.set, SDict.get?, h]
    · simp [SDict.set, SDict.get?, h, ih]

theorem SDict.get?_set_ne {α : Type} (d : SDict α) (k k' : String) (v : α) (h : k ≠ k') :
    (d.set k v).get? k' = d.get? k' := by
  induction d with
  | nil => simp [SDict.set, SDict.get?, h]
  | cons p t ih =>
    by_cases hp : p.1 = k
    · simp [SDict.set, SDict.get?, hp, h]
    · simp [SDict.set, SDict.get?, hp, ih]

theorem SDict.get?_erase_ne {α : Type} (d : SDict α) (k k' : String) (h : k ≠ k') :
    (d.erase k).get? k' = d.get? k' := by
  induction d with
  | nil => simp [SDict.erase]
  | cons p t ih =>
    by_cases hp : p.1 = k
    · simp [SDict.erase, SDict.get?, hp, h]
    · simp [SDict.erase, SDict.get?, hp, ih]

theorem SDict.get?_append {α : Type} (d e : SDict α) (k : String) :
    SDict.get? (d ++ e) k = ((d.get? k).orElse (fun _ => e.get? k)) := by
  induction d with
  | nil => simp [SDict.get?]
  | cons p t ih =>
    by_cases hp : p.1 = k
    · simp [SDict.get?, hp]
    · simp [SDict.get?, hp, ih]

theorem SDict.setdefault_of_isSome {α : Type} (d : SDict α) (k : String) (v : α)
    (h : (d.get? k).isSome) : d.setdefault k v = d := by
  simp [SDict.setdefault, SDict.contains, h]

theorem SDict.get?_setdefault_ne {α : Type} (d : SDict α) (k k' : String) (v : α)
    (h : k ≠ k') : (d.setdefault k v).get? k' = d.get? k' := by
  by_cases hc : d.contains k
  · simp [SDict.setdefault, hc]
  · simp [SDict.setdefault, hc, SDict.get?_append, SDict.get?, h]

theorem SDict.get?_setdefault_isSome {α : Type} (d : SDict α) (k : String) (v : α) :
    ((d.setdefault k v).get? k).isSome := by
  by_cases hc : (d.get? k).isSome
  · simp [SDict.setdefault, SDict.contains, hc]
  · have hn : d.get? k = none := by
      cases hg : d.get? k
      · rfl
      · rw [hg] at hc; simp at hc
    simp [SDict.setdefault, SDict.contains, hc, SDict.get?_append, hn, SDict.get?]

theorem SDict.isSome_get?_set {α : Type} (d : SDict α) (k k' : String) (v : α) :
    ((d.set k v).get? k').isSome = ((d.get? k').isSome || decide (k = k')) := by
  by_cases h : k = k'
  · subst h; simp [SDict.get?_set_self]
  · simp [SDict.get?_set_ne d k k' v h, h]

theorem SDict.isSome_get?_updateWith {α : Type} (e d : SDict α) (k : String) :
    ((SDict.updateWith d e).get? k).isSome
      = ((d.get? k).isSome || (e.get? k).isSome) := by
  induction e generalizing d with
  | nil => simp [SDict.updateWith, SDict.get?]
  | cons p t ih =>
    have step : SDict.updateWith d (p :: t) = SDict.updateWith (d.set p.1 p.2) t := by
      simp [SDict.updateWith]
    rw [step, ih]
    by_cases hp : p.1 = k
    · subst hp
      simp [SDict.isSome_get?_set, SDict.get?]
    · simp [SDict.get?_set_ne d p.1 k p.2 hp, SDict.get?, hp]


/-!  ## Keys touched by the By-variable scan -/

theorem byVarFmt_ne_byVar1 (s : String) : ("ByVar" ++ s ++ "Formatted") ≠ "ByVar1" := by
  intro h
  have hl := congrArg String.length h
  rw [String.length_append, String.length_append] at hl
  have h5 : ("ByVar" : String).length = 5 := rfl
  have h9 : ("Formatted" : String).length = 9 := rfl
  have h6 : ("ByVar1" : String).length = 6 := rfl
  omega

/-- The scan loop only pops `ByVar{i}Formatted` keys, so any other key keeps
its value. -/
theorem scanStep_attrs_get? (k : String)
    (hk : ∀ s, ("ByVar" ++ s ++ "Formatted") ≠ k) :
    ∀ (fuel : Nat) (attrs : SDict Value) (acc : List (String × Value × Value)) (nb i : Nat)
      (res : ScanOut), scanStep attrs acc nb i fuel = .ok res →
      res.attrs.get? k = attrs.get? k := by
  intro fuel
  induction fuel with
  | zero =>
    intro attrs acc nb i res h
    simp [scanStep] at h
  | succ n ih =>
    intro attrs acc nb i res h
    rw [scanStep] at h
    split at h
    · cases h
      rfl
    · split at h
      · cases h
      · split at h
        · cases h
        · split at h
          · cases h
          · have hrec := ih _ _ _ _ _ h
            rw [hrec, SDict.get?_erase_ne _ _ _ (hk (toString i))]

/-- Specialization to the whole scan. -/
theorem scanByVars_attrs_get? (attrs : SDict Value) (res : ScanOut) (k : String)
    (hk : ∀ s, ("ByVar" ++ s ++ "Formatted") ≠ k)
    (h : scanByVars attrs = .ok res) : res.attrs.get? k = attrs.get? k :=
  scanStep_attrs_get? k hk _ attrs [] 0 1 res h

/-!  ## The build loops do not touch the attrs dict -/

theorem buildColumnsStep_attrs (req fsfx csfx : String) (allcolnames : List String)
    (byname : String) (byval byvalfmt : Value) (i : Nat) (dframe : SASDataFrame)
    (bycols : List String) (st : SASDataFrame × List String)
    (h : buildColumnsStep req fsfx csfx allcolnames byname byval byvalfmt i dframe bycols
      = .ok st) : st.1.attrs = dframe.attrs := by
  unfold buildColumnsStep at h
  simp only [bind, Except.bind, pure, Except.pure] at h
  repeat' split at h
  all_goals cases h
  all_goals rfl

theorem buildColumnsLoop_attrs (req fsfx csfx : String) (allcolnames : List String) :
    ∀ (byinfo : List (String × Value × Value)) (i : Nat) (d : SASDataFrame)
      (bycols : List String) (r : SASDataFrame × List String),
      buildColumnsLoop req fsfx csfx allcolnames byinfo i d bycols = .ok r →
      r.1.attrs = d.attrs := by
  intro byinfo
  induction byinfo with
  | nil =>
    intro i d bycols r h
    rw [buildColumnsLoop] at h
    cases h
    rfl
  | cons item rest ih =>
    intro i d bycols r h
    rw [buildColumnsLoop] at h
    cases hst : buildColumnsStep req fsfx csfx allcolnames item.1 item.2.1 item.2.2 i d bycols with
    | error e => rw [hst] at h; cases h
    | ok st =>
      rw [hst] at h
      have h1 := buildColumnsStep_attrs _ _ _ _ _ _ _ _ _ _ _ hst
      have h2 := ih _ _ _ _ h
      rw [h2, h1]

theorem buildColumns_attrs (req fsfx csfx : String) (dframe : SASDataFrame)
    (byinfo : List (String × Value × Value)) (r : SASDataFrame)
    (h : buildColumns req fsfx csfx dframe byinfo = .ok r) : r.attrs = dframe.attrs := by
  unfold buildColumns at h
  cases hl : buildColumnsLoop req fsfx csfx dframe.frame.colNames byinfo 1 dframe [] with
  | error e => rw [hl] at h; cases h
  | ok p =>
    rw [hl] at h
    cases h
    exact buildColumnsLoop_attrs _ _ _ _ _ _ _ _ _ hl

theorem buildIndexStep_attrs (req fsfx : String) (byname : String) (byval byvalfmt : Value)
    (i : Nat) (dframe : SASDataFrame) (appendlevels : Bool) (bylevels : Nat)
    (st : SASDataFrame × Bool × Nat)
    (h : buildIndexStep req fsfx byname byval byvalfmt i dframe appendlevels bylevels
      = .ok st) : st.1.attrs = dframe.attrs := by
  unfold buildIndexStep at h
  simp only [bind, Except.bind, pure, Except.pure] at h
  repeat' split at h
  all_goals cases h
  all_goals rfl

theorem buildIndexLoop_attrs (req fsfx : String) :
    ∀ (byinfo : List (String × Value × Value)) (i : Nat) (d : SASDataFrame)
      (app : Bool) (bl : Nat) (r : SASDataFrame × Bool × Nat),
      buildIndexLoop req fsfx byinfo i d app bl = .ok r → r.1.attrs = d.attrs := by
  intro byinfo
  induction byinfo with
  | nil =>
    intro i d app bl r h
    rw [buildIndexLoop] at h
    cases h
    rfl
  | cons item rest ih =>
    intro i d app bl r h
    rw [buildIndexLoop] at h
    cases hst : buildIndexStep req fsfx item.1 item.2.1 item.2.2 i d app bl with
    | error e => rw [hst] at h; cases h
    | ok st =>
      rw [hst] at h
      have h1 := buildIndexStep_attrs _ _ _ _ _ _ _ _ _ _ hst
      have h2 := ih _ _ _ _ _ h
      rw [h2, h1]

theorem buildIndex_attrs (req fsfx : String) (dframe : SASDataFrame)
    (byinfo : List (String × Value × Value)) (r : SASDataFrame)
    (h : buildIndex req fsfx dframe byinfo = .ok r) : r.attrs = dframe.attrs := by
  unfold buildIndex at h
  cases hl : buildIndexLoop req fsfx byinfo 1 dframe (countNamed dframe.frame.index > 0) 0 with
  | error e => rw [hl] at h; cases h
  | ok p =>
    rw [hl] at h
    dsimp only at h
    have hp := buildIndexLoop_attrs _ _ _ _ _ _ _ _ hl
    by_cases hz : countNamed dframe.frame.index = 0
    · rw [if_pos hz] at h
      cases h
      exact hp
    · rw [if_neg hz] at h
      cases h
      exact hp

/-!  ## Facts about attrs after a successful reshape -/

/-- `valEqStrOpt` can only hold on a present key. -/
theorem valEqStrOpt_isSome (o : Option Value) (s : String)
    (h : valEqStrOpt o s = true) : o.isSome := by
  cases o with
  | none => simp [valEqStrOpt] at h
  | some v => rfl


/-- Key inequalities between the attribute keys the reshaper manipulates. -/
theorem key_mode_ne_byvar1 : ("ByGroupMode" : String) ≠ "ByVar1" := by decide

theorem key_cols_ne_byvar1 : ("ByGroupColumns" : String) ≠ "ByVar1" := by decide

theorem key_cols_ne_mode : ("ByGroupColumns" : String) ≠ "ByGroupMode" := by decide

theorem key_mode_ne_cols : ("ByGroupMode" : String) ≠ "ByGroupColumns" := by decide

/-- After a successful `reshape_bygroups`, either the input had no By-group
information (and the copy keeps the input's attrs), or the output attrs
satisfy the short-circuit condition of the very same request: `ByVar1` still
truthy, `ByGroupColumns` equal to the request, and `ByGroupMode` matching the
requested placement. -/
theorem reshape_ok_post (df : SASDataFrame) (req : String) (idx : Bool)
    (fsfx csfx : String) (r : SASDataFrame)
    (h : df.reshape_bygroups req idx fsfx csfx = .ok r) :
    (truthyOpt (df.attrs.get? "ByVar1") = false ∧ r.attrs = df.attrs)
    ∨ (truthyOpt (r.attrs.get? "ByVar1") = true
       ∧ valEqStrOpt (r.attrs.get? "ByGroupColumns") req = true
       ∧ (valEqStrOpt (r.attrs.get? "ByGroupMode") "attributes"
          || (idx && valEqStrOpt (r.attrs.get? "ByGroupMode") "index")
          || (!idx && valEqStrOpt (r.attrs.get? "ByGroupMode") "columns")) = true) := by
  unfold SASDataFrame.reshape_bygroups at h
  dsimp only [SASDataFrame.getItemCols] at h
  cases hb : truthyOpt (df.attrs.get? "ByVar1") with
  | false =>
    left
    refine ⟨rfl, ?_⟩
    rw [hb] at h
    simp only [Bool.not_false, if_true] at h
    cases h
    rfl
  | true =>
    right
    rw [hb] at h
    simp only [Bool.not_true, Bool.false_eq_true, if_false] at h
    by_cases hsc : (valEqStrOpt (((df.attrs.setdefault "ByGroupMode" (Value.str "attributes")).setdefault "ByGroupColumns" (Value.str "none")).get? "ByGroupColumns") req
        && (valEqStrOpt (((df.attrs.setdefault "ByGroupMode" (Value.str "attributes")).setdefault "ByGroupColumns" (Value.str "none")).get? "ByGroupMode") "attributes"
            || (idx && valEqStrOpt (((df.attrs.setdefault "ByGroupMode" (Value.str "attributes")).setdefault "ByGroupColumns" (Value.str "none")).get? "ByGroupMode") "index")
            || (!idx && valEqStrOpt (((df.attrs.setdefault "ByGroupMode" (Value.str "attributes")).setdefault "ByGroupColumns" (Value.str "none")).get? "ByGroupMode") "columns"))) = true
    · rw [if_pos hsc] at h
      cases h
      have hparts := hsc
      rw [Bool.and_eq_true] at hparts
      refine ⟨?_, hparts.1, hparts.2⟩
      show truthyOpt (((df.attrs.setdefault "ByGroupMode" (Value.str "attributes")).setdefault "ByGroupColumns" (Value.str "none")).get? "ByVar1") = true
      rw [SDict.get?_setdefault_ne _ _ _ _ key_cols_ne_byvar1,
          SDict.get?_setdefault_ne _ _ _ _ key_mode_ne_byvar1]
      exact hb
    · rw [if_neg hsc] at h
      cases hscan : scanByVars ((df.attrs.setdefault "ByGroupMode" (Value.str "attributes")).setdefault "ByGroupColumns" (Value.str "none")) with
      | error e =>
        rw [hscan] at h
        cases h
      | ok sres =>
        rw [hscan] at h
        dsimp only at h
        have hpres : sres.attrs.get? "ByVar1" = df.attrs.get? "ByVar1" := by
          rw [scanByVars_attrs_get? _ _ _ (fun s => byVarFmt_ne_byVar1 s) hscan,
              SDict.get?_setdefault_ne _ _ _ _ key_cols_ne_byvar1,
              SDict.get?_setdefault_ne _ _ _ _ key_mode_ne_byvar1]
        by_cases hnone : req = "none"
        · rw [if_pos hnone] at h
          cases h
          refine ⟨?_, ?_, ?_⟩
          · show truthyOpt (((sres.attrs.set "ByGroupMode" (Value.str "attributes")).set "ByGroupColumns" (Value.str "none")).get? "ByVar1") = true
            rw [SDict.get?_set_ne _ _ _ _ key_cols_ne_byvar1,
                SDict.get?_set_ne _ _ _ _ key_mode_ne_byvar1, hpres]
            exact hb
          · show valEqStrOpt (((sres.attrs.set "ByGroupMode" (Value.str "attributes")).set "ByGroupColumns" (Value.str "none")).get? "ByGroupColumns") req = true
            rw [SDict.get?_set_self, hnone]
            rfl
          · show (valEqStrOpt (((sres.attrs.set "ByGroupMode" (Value.str "attributes")).set "ByGroupColumns" (Value.str "none")).get? "ByGroupMode") "attributes"
              || (idx && valEqStrOpt (((sres.attrs.set "ByGroupMode" (Value.str "attributes")).set "ByGroupColumns" (Value.str "none")).get? "ByGroupMode") "index")
              || (!idx && valEqStrOpt (((sres.attrs.set "ByGroupMode" (Value.str "attributes")).set "ByGroupColumns" (Value.str "none")).get? "ByGroupMode") "columns")) = true
            rw [SDict.get?_set_ne _ _ _ _ key_cols_ne_mode, SDict.get?_set_self]
            simp [valEqStrOpt]
        · rw [if_neg hnone] at h
          cases hidx : idx with
          | true =>
            rw [hidx] at h
            rw [if_pos rfl] at h
            have ha := buildIndex_attrs _ _ _ _ _ h
            rw [ha]
            refine ⟨?_, ?_, ?_⟩
            · show truthyOpt (((sres.attrs.set "ByGroupColumns" (Value.str req)).set "ByGroupMode" (Value.str "index")).get? "ByVar1") = true
              rw [SDict.get?_set_ne _ _ _ _ key_mode_ne_byvar1,
                  SDict.get?_set_ne _ _ _ _ key_cols_ne_byvar1, hpres]
              exact hb
            · show valEqStrOpt (((sres.attrs.set "ByGroupColumns" (Value.str req)).set "ByGroupMode" (Value.str "index")).get? "ByGroupColumns") req = true
              rw [SDict.get?_set_ne _ _ _ _ key_mode_ne_cols, SDict.get?_set_self]
              simp [valEqStrOpt]
            · show (valEqStrOpt (((sres.attrs.set "ByGroupColumns" (Value.str req)).set "ByGroupMode" (Value.str "index")).get? "ByGroupMode") "attributes"
                || (true && valEqStrOpt (((sres.attrs.set "ByGroupColumns" (Value.str req)).set "ByGroupMode" (Value.str "index")).get? "ByGroupMode") "index")
                || (!true && valEqStrOpt (((sres.attrs.set "ByGroupColumns" (Value.str req)).set "ByGroupMode" (Value.str "index")).get? "ByGroupMode") "columns")) = true
              rw [SDict.get?_set_self]
              simp [valEqStrOpt]
          | false =>
            rw [hidx] at h
            rw [if_neg Bool.false_ne_true] at h
            have ha := buildColumns_attrs _ _ _ _ _ _ h
            rw [ha]
            refine ⟨?_, ?_, ?_⟩
            · show truthyOpt (((sres.attrs.set "ByGroupColumns" (Value.str req)).set "ByGroupMode" (Value.str "columns")).get? "ByVar1") = true
              rw [SDict.get?_set_ne _ _ _ _ key_mode_ne_byvar1,
                  SDict.get?_set_ne _ _ _ _ key_cols_ne_byvar1, hpres]
              exact hb
            · show valEqStrOpt (((sres.attrs.set "ByGroupColumns" (Value.str req)).set "ByGroupMode" (Value.str "columns")).get? "ByGroupColumns") req = true
              rw [SDict.get?_set_ne _ _ _ _ key_mode_ne_cols, SDict.get?_set_self]
              simp [valEqStrOpt]
            · show (valEqStrOpt (((sres.attrs.set "ByGroupColumns" (Value.str req)).set "ByGroupMode" (Value.str "columns")).get? "ByGroupMode") "attributes"
                || (false && valEqStrOpt (((sres.attrs.set "ByGroupColumns" (Value.str req)).set "ByGroupMode" (Value.str "columns")).get? "ByGroupMode") "index")
                || (!false && valEqStrOpt (((sres.attrs.set "ByGroupColumns" (Value.str req)).set "ByGroupMode" (Value.str "columns")).get? "ByGroupMode") "columns")) = true
              rw [SDict.get?_set_self]
              simp [valEqStrOpt]


/-- The short-circuit path of the reshaper: when the requested columns-state
equals the current one and the requested placement matches the current mode,
the method returns the copy unchanged (here: the table itself, the copy being
the identity when self-selection is the identity). -/
theorem reshape_shortcircuits (df : SASDataFrame) (req : String) (idx : Bool)
    (fsfx csfx : String)
    (hid : df.frame.getCols df.frame.colNames = df.frame)
    (htr : truthyOpt (df.attrs.get? "ByVar1") = true)
    (hcols : valEqStrOpt (df.attrs.get? "ByGroupColumns") req = true)
    (hmode : (valEqStrOpt (df.attrs.get? "ByGroupMode") "attributes"
        || (idx && valEqStrOpt (df.attrs.get? "ByGroupMode") "index")
        || (!idx && valEqStrOpt (df.attrs.get? "ByGroupMode") "columns")) = true) :
    df.reshape_bygroups req idx fsfx csfx = .ok df := by
  have hmodeSome : (df.attrs.get? "ByGroupMode").isSome = true := by
    have hm := hmode
    rw [Bool.or_eq_true, Bool.or_eq_true] at hm
    rcases hm with (h1 | h2) | h3
    · exact valEqStrOpt_isSome _ _ h1
    · rw [Bool.and_eq_true] at h2
      exact valEqStrOpt_isSome _ _ h2.2
    · rw [Bool.and_eq_true] at h3
      exact valEqStrOpt_isSome _ _ h3.2
  have hcolsSome : (df.attrs.get? "ByGroupColumns").isSome = true :=
    valEqStrOpt_isSome _ _ hcols
  have hsd : (df.attrs.setdefault "ByGroupMode" (Value.str "attributes")).setdefault "ByGroupColumns" (Value.str "none") = df.attrs := by
    rw [SDict.setdefault_of_isSome _ _ _ hmodeSome,
        SDict.setdefault_of_isSome _ _ _ hcolsSome]
  unfold SASDataFrame.reshape_bygroups
  dsimp only [SASDataFrame.getItemCols]
  rw [htr]
  simp only [Bool.not_true, Bool.false_eq_true, if_false]
  rw [hsd, hcols, hmode]
  simp only [Bool.true_and, if_true]
  rw [hid]


/-!  ## Claim C4: short-circuit and idempotence -/

/-- C4: for a table with By-group information, if the requested
`bygroup_columns` equals the current `attrs['ByGroupColumns']` and the
requested index/column placement matches the current `attrs['ByGroupMode']`,
`reshape_bygroups` returns the copy unchanged; hence calling the reshaper a
second time with identical target parameters returns exactly the
post-first-call state. -/
theorem reshape_bygroups_idempotent (df : SASDataFrame) (req : String)
    (idx : Bool) (fsfx csfx : String) :
    ((df.frame.getCols df.frame.colNames = df.frame) →
      truthyOpt (df.attrs.get? "ByVar1") = true →
      valEqStrOpt (df.attrs.get? "ByGroupColumns") req = true →
      (valEqStrOpt (df.attrs.get? "ByGroupMode") "attributes"
        || (idx && valEqStrOpt (df.attrs.get? "ByGroupMode") "index")
        || (!idx && valEqStrOpt (df.attrs.get? "ByGroupMode") "columns")) = true →
      df.reshape_bygroups req idx fsfx csfx = .ok df)
    ∧ (∀ r, df.reshape_bygroups req idx fsfx csfx = .ok r →
        r.frame.getCols r.frame.colNames = r.frame →
        r.reshape_bygroups req idx fsfx csfx = .ok r) := by
  constructor
  · intro hid htr hcols hmode
    exact reshape_shortcircuits df req idx fsfx csfx hid htr hcols hmode
  · intro r h1 hid2
    rcases reshape_ok_post df req idx fsfx csfx r h1 with ⟨hfalse, hattrs⟩ | ⟨htr, hcols, hmode⟩
    · unfold SASDataFrame.reshape_bygroups
      dsimp only [SASDataFrame.getItemCols]
      rw [hattrs, hfalse]
      simp only [Bool.not_false, if_true]
      rw [hid2, ← hattrs]
    · exact reshape_shortcircuits r req idx fsfx csfx hid2 htr hcols hmode

/-- Witness for C4 at concrete inputs: `dfCols` already satisfies the
short-circuit condition for a raw/columns request, and the result `dfMid` of
reshaping `dfRound` is a fixed point of the same request. -/
theorem reshape_bygroups_idempotent_witness :
    dfCols.reshape_bygroups "raw" false "_f" "_by" = .ok dfCols
    ∧ dfMid.reshape_bygroups "raw" false "_f" "_by" = .ok dfMid := by
  constructor
  · exact (reshape_bygroups_idempotent dfCols "raw" false "_f" "_by").1
      (by decide) (by decide) (by decide) (by decide)
  · exact (reshape_bygroups_idempotent dfRound "raw" false "_f" "_by").2 dfMid
      (by rfl) (by decide)

/-!  ## Claims C1 and C2: the strip step keeps the By columns it should drop -/

/-- C1: evaluation of the round trip at a concrete table.  Reshaping
`dfRound` (data column `A`, By variable `Origin`, mode `attributes`) to
raw columns and back to `'none'` leaves `ByGroupMode == 'attributes'` and
`ByGroupColumns == 'none'` as the claim states, but the surviving data column
is the materialized grouping column `Origin` — the original column `A` is
gone, because `iloc[:, :numbycols]` keeps the leading By columns instead of
dropping them. -/
theorem roundtrip_none_keeps_bycols_drops_data :
    ((dfRound.reshape_bygroups "raw" false "_f" "_by").bind
        (fun mid => mid.reshape_bygroups "none" false "_f" "_by")).map
        (fun fin => (fin.frame.colNames, fin.attrs.get? "ByGroupMode",
                     fin.attrs.get? "ByGroupColumns"))
      = .ok (["Origin"], some (Value.str "attributes"), some (Value.str "none"))
    ∧ dfRound.frame.colNames = ["A"] := by
  constructor
  · rfl
  · rfl

/-- C2: evaluation of the strip step at a concrete table in `columns` mode
(`numbycols = 1`).  The claim (and the source comment `# Drop existing
columns`) say the one leading By column is removed leaving `A`; the code's
`dframe.iloc[:, :numbycols]` instead keeps `Origin` and drops `A`. -/
theorem strip_materialized_keeps_bycols :
    (dfCols.reshape_bygroups "none" false "_f" "_by").map (fun r => r.frame.colNames)
      = .ok ["Origin"]
    ∧ dfCols.frame.colNames = ["Origin", "A"] := by
  constructor
  · rfl
  · rfl


/-!  ## Claim C8: pop semantics -/

/-- A key absent from the key list has no entry. -/
theorem SDict.get?_eq_none_of_not_mem {α : Type} (d : SDict α) (k : String)
    (h : k ∉ d.map Prod.fst) : d.get? k = none := by
  induction d with
  | nil => rfl
  | cons p t ih =>
    simp only [List.map_cons, List.mem_cons] at h
    push_neg at h
    have : ¬ p.1 = k := fun he => h.1 he.symm
    simp [SDict.get?, this, ih h.2]

/-- Erasing a key from a duplicate-free dict removes its entry. -/
theorem SDict.get?_erase_self {α : Type} (d : SDict α) (k : String)
    (hnd : (d.map Prod.fst).Nodup) : (d.erase k).get? k = none := by
  induction d with
  | nil => rfl
  | cons p t ih =>
    simp only [List.map_cons, List.nodup_cons] at hnd
    by_cases hp : p.1 = k
    · rw [SDict.erase]
      rw [if_pos hp]
      apply SDict.get?_eq_none_of_not_mem
      rw [← hp]
      exact hnd.1
    · rw [SDict.erase]
      rw [if_neg hp]
      simp [SDict.get?, hp, ih hnd.2]

/-- C8 (amended): `pop(k)` removes both the data column and the colinfo entry
and returns the column when it exists; a missing column raises `KeyError`
with the data unchanged; a supplied default is handed to
`pandas.DataFrame.pop`, whose signature accepts no default, so the call
raises `TypeError` instead of returning the default.  In every case the
colinfo entry for `k` is dropped first. -/
theorem pop_spec (df : SASDataFrame) (k : String) :
    (∀ c, PDataFrame.lookupCol df.frame.cols k = some c →
      (df.popCol k false).1 = .ok c.2
      ∧ (df.popCol k false).2.frame.cols = df.frame.cols.filter (fun e => !decide (e.1 = k)))
    ∧ (PDataFrame.lookupCol df.frame.cols k = none →
      (df.popCol k false).1 = .error (.keyError k)
      ∧ (df.popCol k false).2.frame = df.frame)
    ∧ ((df.popCol k true).1 = .error .typeError
      ∧ (df.popCol k true).2.frame = df.frame)
    ∧ ((df.colinfo.map Prod.fst).Nodup →
      ∀ b, ((df.popCol k b).2.colinfo).get? k = none) := by
  refine ⟨?_, ?_, ⟨rfl, rfl⟩, ?_⟩
  · intro c hc
    unfold SASDataFrame.popCol
    dsimp only
    rw [hc]
    exact ⟨rfl, rfl⟩
  · intro hc
    unfold SASDataFrame.popCol
    dsimp only
    rw [hc]
    exact ⟨rfl, rfl⟩
  · intro hnd b
    have : ∀ b, (df.popCol k b).2.colinfo = df.colinfo.erase k := by
      intro b
      unfold SASDataFrame.popCol
      cases b with
      | true => rfl
      | false =>
        dsimp only
        cases hc : PDataFrame.lookupCol df.frame.cols k with
        | some c => rfl
        | none => rfl
    rw [this b]
    exact SDict.get?_erase_self _ _ hnd

/-- Witness for C8 at a concrete table: popping the existing column `A`
returns its data and empties colinfo; popping a missing key raises. -/
theorem pop_spec_witness :
    (dfPop.popCol "A" false).1 = .ok [Value.int 1]
    ∧ (dfPop.popCol "missing" false).1 = .error (PyErr.keyError "missing")
    ∧ ((dfPop.popCol "A" false).2.colinfo).get? "A" = none := by
  refine ⟨((pop_spec dfPop "A").1 ("A", [Value.int 1]) (by rfl)).1, ?_, ?_⟩
  · exact ((pop_spec dfPop "missing").2.1 (by rfl)).1
  · exact (pop_spec dfPop "A").2.2.2 (by decide) false

/-- C8 counterexample: on a table without column `x`, `pop('x', default)`
does not return the default — the delegated pandas `pop` accepts no default
argument and the call raises `TypeError`. -/
theorem pop_with_default_raises :
    (dfPop.popCol "x" true).1 = .error PyErr.typeError := rfl


/-!  ## Claim C3: the format parser -/

/-- `findDotBack` returns an in-bounds position holding the dot. -/
theorem findDotBack_spec (s : List Char) :
    ∀ k j, findDotBack s k = some j → j ≤ k ∧ s[j]? = some '.' := by
  intro k
  induction k with
  | zero =>
    intro j h
    rw [findDotBack] at h
    by_cases h0 : s[0]? = some '.'
    · rw [if_pos h0] at h
      cases h
      exact ⟨Nat.le_refl _, h0⟩
    · rw [if_neg h0] at h
      cases h
  | succ m ih =>
    intro j h
    rw [findDotBack] at h
    by_cases h0 : s[m + 1]? = some '.'
    · rw [if_pos h0] at h
      cases h
      exact ⟨Nat.le_refl _, h0⟩
    · rw [if_neg h0] at h
      obtain ⟨h1, h2⟩ := ih j h
      exact ⟨Nat.le_succ_of_le h1, h2⟩

/-- A prefix not exceeding the digit run consists of digits. -/
theorem take_all_digits :
    ∀ (s : List Char) (k : Nat), k ≤ (s.takeWhile Char.isDigit).length →
      ∀ c ∈ s.take k, c.isDigit = true := by
  intro s
  induction s with
  | nil =>
    intro k hk c hc
    simp at hc
  | cons a t ih =>
    intro k hk c hc
    cases k with
    | zero => simp at hc
    | succ m =>
      by_cases ha : a.isDigit
      · rw [List.takeWhile_cons, if_pos ha] at hk
        simp only [List.length_cons, Nat.succ_le_succ_iff] at hk
        rw [List.take_succ_cons] at hc
        rcases List.mem_cons.mp hc with hca | hct
        · rw [hca]; exact ha
        · exact ih m hk c hct
      · rw [List.takeWhile_cons, if_neg ha] at hk
        simp at hk
  
/-- The head of `dropWhile p` fails `p`. -/
theorem head?_dropWhile_false (p : Char → Bool) :
    ∀ (l : List Char) (c : Char), (l.dropWhile p).head? = some c → p c = false := by
  intro l
  induction l with
  | nil =>
    intro c h
    simp [List.dropWhile] at h
  | cons a t ih =>
    intro c h
    by_cases ha : p a
    · rw [List.dropWhile_cons, if_pos ha] at h
      exact ih c h
    · rw [List.dropWhile_cons, if_neg ha] at h
      simp only [List.head?_cons, Option.some.injEq] at h
      rw [← h]
      exact Bool.of_not_eq_true ha

/-- A successful `matchNumDot` decomposes its input as
digit-run, literal dot, digit-run, rest (with the second run maximal). -/
theorem matchNumDot_spec (s w dec rest : List Char)
    (h : matchNumDot s = some (w, dec, rest)) :
    s = w ++ '.' :: dec ++ rest ∧ (∀ c ∈ w, c.isDigit = true)
      ∧ (∀ c ∈ dec, c.isDigit = true)
      ∧ (∀ c, rest.head? = some c → c.isDigit = false) := by
  unfold matchNumDot at h
  dsimp only at h
  cases hf : findDotBack s (s.takeWhile Char.isDigit).length with
  | none => rw [hf] at h; cases h
  | some k =>
    rw [hf] at h
    cases h
    obtain ⟨hk, hdot⟩ := findDotBack_spec s _ k hf
    have hklen : k < s.length := by
      rcases List.getElem?_eq_some_iff.mp hdot with ⟨hlt, _⟩
      exact hlt
    refine ⟨?_, take_all_digits s k hk, ?_, ?_⟩
    · have h1 : s.take k ++ s.drop k = s := List.take_append_drop k s
      have h2 : s.drop k = '.' :: s.drop (k + 1) := by
        rw [List.drop_eq_getElem_cons hklen]
        rcases List.getElem?_eq_some_iff.mp hdot with ⟨hlt, hv⟩
        rw [hv]
      have h3 : (s.drop (k + 1)).takeWhile Char.isDigit
          ++ (s.drop (k + 1)).dropWhile Char.isDigit = s.drop (k + 1) :=
        List.takeWhile_append_dropWhile _ _
      conv_lhs => rw [← h1, h2, ← h3]
      simp
    · intro c hc
      exact List.mem_takeWhile_imp hc
    · intro c hc
      exact head?_dropWhile_false Char.isDigit _ c hc

/-- A successful `matchFrom` decomposes its input as a word-character run, a
digit run, the literal dot, a maximal digit run, and the rest. -/
theorem matchFrom_spec : ∀ (s nm w dec rest : List Char),
    matchFrom s = some (nm, w, dec, rest) →
    s = nm ++ w ++ '.' :: dec ++ rest
      ∧ (∀ c ∈ nm, isWordChar c = true) ∧ (∀ c ∈ w, c.isDigit = true)
      ∧ (∀ c ∈ dec, c.isDigit = true)
      ∧ (∀ c, rest.head? = some c → c.isDigit = false) := by
  intro s
  induction s with
  | nil =>
    intro nm w dec rest h
    simp [matchFrom, matchNumDot, findDotBack] at h
  | cons a t ih =>
    intro nm w dec rest h
    rw [matchFrom] at h
    cases hm : matchNumDot (a :: t) with
    | some triple =>
      rw [hm] at h
      obtain ⟨w0, dec0, rest0⟩ := triple
      cases h
      obtain ⟨he, hw, hd, hr⟩ := matchNumDot_spec _ _ _ _ hm
      exact ⟨by simpa using he, by simp, hw, hd, hr⟩
    | none =>
      rw [hm] at h
      by_cases ha : isWordChar a
      · rw [if_pos ha] at h
        cases hmf : matchFrom t with
        | none => rw [hmf] at h; cases h
        | some r =>
          rw [hmf] at h
          obtain ⟨nm1, w1, dec1, rest1⟩ := r
          simp only [Option.map_some] at h
          cases h
          obtain ⟨he, hn, hw, hd, hr⟩ := ih _ _ _ _ hmf
          refine ⟨by simp [he, List.append_assoc], ?_, hw, hd, hr⟩
          intro c hc
          rcases List.mem_cons.mp hc with hca | hct
          · rw [hca]; exact ha
          · exact hn c hct
      · rw [if_neg ha] at h
        cases h

/-- C3 (amended): `split_format` never raises on the empty input (returning
the all-default tuple) and never raises on a non-empty input on which the
grammar match succeeds; on success a leading `'$'` sets `ischar`, the matched
digits before the literal dot give `width`, the digits after it give `ndec`,
and missing numeric groups default to 0.  A non-empty input on which
`re.match` fails — one with no reachable literal dot, such as `"abc"` —
raises (`.groups()` on `None`), contrary to the original claim. -/
theorem split_format_spec :
    split_format "" = some ⟨false, "", 0, 0⟩
    ∧ (∀ fmt r, fmt ≠ "" → split_format fmt = some r →
        ∃ nm w dec rest,
          fmt.data = (if r.ischar then ['$'] else []) ++ nm ++ w ++ '.' :: dec ++ rest
          ∧ (∀ c ∈ nm, isWordChar c = true) ∧ (∀ c ∈ w, c.isDigit = true)
          ∧ (∀ c ∈ dec, c.isDigit = true)
          ∧ (∀ c, rest.head? = some c → c.isDigit = false)
          ∧ r.ischar = decide (fmt.data.head? = some '$')
          ∧ r.name = String.mk nm ∧ r.width = natOfDigits w ∧ r.ndec = natOfDigits dec) := by
  constructor
  · rfl
  · intro fmt r hne h
    unfold split_format at h
    rw [if_neg hne] at h
    dsimp only at h
    by_cases hd : fmt.data.head? = some '$'
    · rw [if_pos (by simp [hd])] at h
      cases hmf : matchFrom fmt.data.tail with
      | none => rw [hmf] at h; cases h
      | some q =>
        rw [hmf] at h
        obtain ⟨nm1, w1, dec1, rest1⟩ := q
        cases h
        obtain ⟨he, hn, hw, hdd, hr⟩ := matchFrom_spec _ _ _ _ _ hmf
        refine ⟨nm1, w1, dec1, rest1, ?_, hn, hw, hdd, hr, by simp [hd], rfl, rfl, rfl⟩
        have hcons : fmt.data = '$' :: fmt.data.tail := by
          cases hfd : fmt.data with
          | nil => rw [hfd] at hd; simp at hd
          | cons c t =>
            rw [hfd] at hd
            simp only [List.head?_cons, Option.some.injEq] at hd
            rw [hd]
            rfl
        rw [hcons, he]
        simp [hd]
    · rw [if_neg (by simp [hd])] at h
      cases hmf : matchFrom fmt.data with
      | none => rw [hmf] at h; cases h
      | some q =>
        rw [hmf] at h
        obtain ⟨nm1, w1, dec1, rest1⟩ := q
        cases h
        obtain ⟨he, hn, hw, hdd, hr⟩ := matchFrom_spec _ _ _ _ _ hmf
        exact ⟨nm1, w1, dec1, rest1, by simpa [hd] using he, hn, hw, hdd, hr,
          by simp [hd], rfl, rfl, rfl⟩

/-- Witness for C3 at `"F8.2"`: the decomposition exists with the parsed
components `(false, "F", 8, 2)`. -/
theorem split_format_spec_witness :
    ∃ nm w dec rest,
      ("F8.2" : String).data
        = (if (SASFormat.mk false "F" 8 2).ischar then ['$'] else []) ++ nm ++ w ++ '.' :: dec ++ rest
      ∧ (∀ c ∈ nm, isWordChar c = true) ∧ (∀ c ∈ w, c.isDigit = true)
      ∧ (∀ c ∈ dec, c.isDigit = true)
      ∧ (∀ c, rest.head? = some c → c.isDigit = false)
      ∧ (SASFormat.mk false "F" 8 2).ischar = decide (("F8.2" : String).data.head? = some '$')
      ∧ (SASFormat.mk false "F" 8 2).name = String.mk nm
      ∧ (SASFormat.mk false "F" 8 2).width = natOfDigits w
      ∧ (SASFormat.mk false "F" 8 2).ndec = natOfDigits dec :=
  split_format_spec.2 "F8.2" ⟨false, "F", 8, 2⟩ (by decide) (by rfl)

/-- C3 counterexample: the dot-less input `"abc"` makes `re.match` fail, so
`split_format` raises instead of returning a 4-tuple. -/
theorem split_format_dotless_raises : split_format "abc" = none := rfl


/-!  ## Lookup lemmas for the column list -/

theorem lookupCol_isSome_iff (cols : List (String × List Value)) (k : String) :
    (PDataFrame.lookupCol cols k).isSome = true ↔ k ∈ cols.map Prod.fst := by
  induction cols with
  | nil => simp [PDataFrame.lookupCol]
  | cons c t ih =>
    by_cases hc : c.1 = k
    · simp [PDataFrame.lookupCol, hc]
    · simp only [PDataFrame.lookupCol, if_neg hc, List.map_cons, List.mem_cons, ih]
      constructor
      · exact fun h => Or.inr h
      · rintro (h | h)
        · exact absurd h.symm hc
        · exact h

theorem lookupCol_eq_none (cols : List (String × List Value)) (k : String)
    (h : ¬ k ∈ cols.map Prod.fst) : PDataFrame.lookupCol cols k = none := by
  cases hl : PDataFrame.lookupCol cols k with
  | none => rfl
  | some c =>
    exact absurd ((lookupCol_isSome_iff cols k).mp (by rw [hl]; rfl)) h

theorem lookupCol_append (l1 l2 : List (String × List Value)) (k : String) :
    PDataFrame.lookupCol (l1 ++ l2) k
      = (PDataFrame.lookupCol l1 k).orElse (fun _ => PDataFrame.lookupCol l2 k) := by
  induction l1 with
  | nil => simp [PDataFrame.lookupCol]
  | cons c t ih =>
    by_cases hc : c.1 = k
    · simp [PDataFrame.lookupCol, hc]
    · simp [PDataFrame.lookupCol, hc, ih]

/-!  ## Claim C5: the colinfo-coverage invariant -/

/-- The backfill loop: an existing entry wins, a missing entry for a present
column becomes the default spec. -/
theorem backfillColinfo_get? :
    ∀ (names : List String) (ci : SDict SASColumnSpec) (c : String),
      (SASDataFrame.backfillColinfo names ci).get? c
        = ((ci.get? c).orElse
            (fun _ => if c ∈ names then some (defaultSpec c) else none)) := by
  intro names
  induction names with
  | nil =>
    intro ci c
    simp only [SASDataFrame.backfillColinfo, List.foldl_nil, List.not_mem_nil, if_false]
    cases ci.get? c <;> rfl
  | cons n rest ih =>
    intro ci c
    have hstep : SASDataFrame.backfillColinfo (n :: rest) ci
        = SASDataFrame.backfillColinfo rest
            (if ci.contains n then ci else ci ++ [(n, defaultSpec n)]) := rfl
    rw [hstep]
    by_cases hc : ci.contains n
    · rw [if_pos hc, ih]
      by_cases hcn : c = n
      · subst hcn
        have : (ci.get? c).isSome = true := hc
        cases hg : ci.get? c
        · rw [hg] at this; cases this
        · rfl
      · simp [List.mem_cons, hcn]
    · rw [if_neg hc, ih]
      by_cases hcn : c = n
      · subst hcn
        have hnone : ci.get? c = none := by
          cases hg : ci.get? c
          · rfl
          · exact absurd (by rw [SDict.contains, hg]; rfl) hc
        simp [SDict.get?_append, hnone, SDict.get?]
      · have hne : ¬ n = c := fun h => hcn h.symm
        have hsingle : SDict.get? [(n, defaultSpec n)] c = none := by
          simp [SDict.get?, hne]
        rw [SDict.get?_append, hsingle]
        cases hg : ci.get? c
        · simp [List.mem_cons, hcn]
        · rfl

/-- Union-fold membership for the first-seen column order. -/
theorem mem_insertSeen (acc : List String) (c x : String) :
    x ∈ insertSeen acc c ↔ x ∈ acc ∨ x = c := by
  unfold insertSeen
  by_cases h : c ∈ acc
  · rw [if_pos h]
    constructor
    · exact fun hx => Or.inl hx
    · rintro (hx | hx)
      · exact hx
      · rw [hx]; exact h
  · rw [if_neg h]
    simp

theorem mem_foldl_insertSeen (l : List String) :
    ∀ (acc : List String) (x : String),
      x ∈ l.foldl insertSeen acc ↔ x ∈ acc ∨ x ∈ l := by
  induction l with
  | nil => intro acc x; simp
  | cons a t ih =>
    intro acc x
    rw [List.foldl_cons, ih, mem_insertSeen]
    simp only [List.mem_cons]
    tauto

theorem mem_colsUnionFold (objs : List SASDataFrame) :
    ∀ (acc : List String) (x : String),
      x ∈ objs.foldl (fun acc df => df.frame.colNames.foldl insertSeen acc) acc
        ↔ x ∈ acc ∨ ∃ d ∈ objs, x ∈ d.frame.colNames := by
  induction objs with
  | nil => intro acc x; simp
  | cons d t ih =>
    intro acc x
    rw [List.foldl_cons, ih, mem_foldl_insertSeen]
    constructor
    · rintro ((h | h) | ⟨e, he, hx⟩)
      · exact Or.inl h
      · exact Or.inr ⟨d, List.mem_cons_self d t, h⟩
      · exact Or.inr ⟨e, List.mem_cons_of_mem d he, hx⟩
    · rintro (h | ⟨e, he, hx⟩)
      · exact Or.inl (Or.inl h)
      · rcases List.mem_cons.mp he with rfl | he2
        · exact Or.inl (Or.inr hx)
        · exact Or.inr ⟨e, he2, hx⟩

/-- Presence in the folded colinfo union. -/
theorem colinfoFold_isSome (objs : List SASDataFrame) :
    ∀ (acc : SDict SASColumnSpec) (k : String),
      (((objs.foldl (fun acc df => SDict.updateWith acc df.colinfo) acc).get? k).isSome)
        = ((acc.get? k).isSome || objs.any (fun d => (d.colinfo.get? k).isSome)) := by
  induction objs with
  | nil => intro acc k; simp
  | cons d t ih =>
    intro acc k
    rw [List.foldl_cons, ih, SDict.isSome_get?_updateWith]
    simp [Bool.or_assoc]

/-- The colinfo built by the `SASDataFrame` constructor: entries only for the
columns of the data, looked up in the incoming mapping. -/
theorem make_colinfo_get? (frame : PDataFrame) (nm lb tt : Option String)
    (fmtr : Nat) (attrs : SDict Value) (ci : SDict SASColumnSpec) (k : String) :
    SDict.get? ((SASDataFrame.make frame nm lb tt fmtr attrs ci).colinfo) k
      = if k ∈ frame.colNames then ci.get? k else none := by
  show SDict.get? (frame.colNames.filterMap (fun c => (ci.get? c).map (fun s => (c, s)))) k
      = if k ∈ frame.colNames then ci.get? k else none
  induction frame.colNames with
  | nil => rfl
  | cons n rest ih =>
    rw [List.filterMap_cons]
    by_cases hkn : n = k
    · subst hkn
      cases hg : ci.get? n with
      | none =>
        simp only [Option.map_none']
        rw [ih]
        by_cases hr : n ∈ rest
        · simp [hr, hg, List.mem_cons]
        · simp [hr, hg, List.mem_cons]
      | some sp =>
        simp only [Option.map_some']
        simp [SDict.get?, hg, List.mem_cons]
    · have hne : k ≠ n := fun h => hkn h.symm
      cases hg : ci.get? n with
      | none =>
        simp only [Option.map_none']
        rw [ih]
        simp [List.mem_cons, hne]
      | some sp =>
        simp only [Option.map_some']
        rw [show SDict.get? ((n, sp) :: List.filterMap (fun c => (ci.get? c).map (fun s => (c, s))) rest) k
            = SDict.get? (List.filterMap (fun c => (ci.get? c).map (fun s => (c, s))) rest) k from by
          simp [SDict.get?, hkn]]
        rw [ih]
        simp [List.mem_cons, hne]

/-- Selecting names that all exist gives exactly those names as columns. -/
theorem getCols_colNames_of_mem (f : PDataFrame) :
    ∀ (names : List String),
      (∀ n ∈ names, (PDataFrame.lookupCol f.cols n).isSome = true) →
      (f.getCols names).colNames = names := by
  intro names
  induction names with
  | nil => intro _; rfl
  | cons n rest ih =>
    intro h
    have hn := h n (List.mem_cons_self n rest)
    cases hl : PDataFrame.lookupCol f.cols n with
    | none => rw [hl] at hn; cases hn
    | some c =>
      have hrest := ih (fun m hm => h m (List.mem_cons_of_mem n hm))
      show ((n :: rest).filterMap
          (fun m => (PDataFrame.lookupCol f.cols m).map (fun c => (m, c.2)))).map Prod.fst
        = n :: rest
      rw [List.filterMap_cons, hl]
      simp only [Option.map_some', List.map_cons, List.cons.injEq]
      exact ⟨trivial, hrest⟩

/-- Projecting the keys back out of a keyed map. -/
theorem map_fst_map_pair {β : Type} (names : List String) (g : String → β) :
    (names.map (fun n => (n, g n))).map Prod.fst = names := by
  induction names with
  | nil => rfl
  | cons n t ih => simp [ih]

/-- The column names of `pd.concat` are the first-seen union. -/
theorem pdConcat_colNames (fs : List PDataFrame) :
    (pdConcat fs).colNames = firstSeenUnion (fs.map PDataFrame.colNames) :=
  map_fst_map_pair _ _

/-- Looking up one of the generated concat columns succeeds. -/
theorem lookupCol_pdConcat_isSome (fs : List PDataFrame) (k : String)
    (h : k ∈ firstSeenUnion (fs.map PDataFrame.colNames)) :
    (PDataFrame.lookupCol (pdConcat fs).cols k).isSome = true := by
  rw [lookupCol_isSome_iff]
  have hmap : (pdConcat fs).cols.map Prod.fst = firstSeenUnion (fs.map PDataFrame.colNames) :=
    map_fst_map_pair _ _
  rw [hmap]
  exact h


/-- `allSas` recovers the list when every element is a `SASDataFrame`. -/
theorem allSas_map_sas : ∀ (l : List SASDataFrame), allSas (l.map TableLike.sas) = some l := by
  intro l
  induction l with
  | nil => rfl
  | cons d t ih => simp [allSas, ih]

/-- The concat column-order fold equals the first-seen union of the frames. -/
theorem columnsFold_eq_firstSeenUnion (objs : List SASDataFrame) :
    objs.foldl (fun acc df => df.frame.colNames.foldl insertSeen acc) []
      = firstSeenUnion ((objs.map SASDataFrame.frame).map PDataFrame.colNames) := by
  unfold firstSeenUnion
  rw [List.map_map, List.foldl_map]
  rfl

/-- Selected column names come from the requested list. -/
theorem mem_colNames_getCols (f : PDataFrame) (names : List String) (c : String)
    (h : c ∈ (f.getCols names).colNames) : c ∈ names := by
  unfold PDataFrame.getCols PDataFrame.colNames at h
  dsimp only at h
  rcases List.mem_map.mp h with ⟨e, he, hfst⟩
  rcases List.mem_filterMap.mp he with ⟨n, hn, hsome⟩
  cases hl : PDataFrame.lookupCol f.cols n with
  | none => rw [hl] at hsome; cases hsome
  | some cc =>
    rw [hl] at hsome
    simp only [Option.map_some', Option.some.injEq] at hsome
    rw [← hsome] at hfst
    rw [← hfst]
    exact hn

/-- C5: after a column assignment, a column insertion, or a concat of tables
each satisfying the invariant, every column name present in the result has a
colinfo entry, and a column that lacked one receives the default
`SASColumnSpec` built from just its name. -/
theorem colinfo_invariant :
    (∀ (df : SASDataFrame) (k : String) (vals : List Value),
      (∀ c ∈ (df.setItem k vals).frame.colNames,
        (((df.setItem k vals).colinfo.get? c).isSome = true))
      ∧ (∀ c ∈ (df.setItem k vals).frame.colNames, df.colinfo.get? c = none →
          (df.setItem k vals).colinfo.get? c = some (defaultSpec c)))
    ∧ (∀ (df : SASDataFrame) (loc : Nat) (k : String) (vals : List Value),
      (∀ c ∈ (df.insertAt loc k vals).frame.colNames,
        (((df.insertAt loc k vals).colinfo.get? c).isSome = true))
      ∧ (∀ c ∈ (df.insertAt loc k vals).frame.colNames, df.colinfo.get? c = none →
          (df.insertAt loc k vals).colinfo.get? c = some (defaultSpec c)))
    ∧ (∀ (proto : SASDataFrame) (rest : List SASDataFrame) (r : TableLike),
        swat_concat ((proto :: rest).map TableLike.sas) = .ok r →
        (∀ d ∈ proto :: rest, ∀ c ∈ d.frame.colNames, ((d.colinfo.get? c).isSome = true)) →
        ∀ rr, r = TableLike.sas rr →
          ∀ c ∈ rr.frame.colNames, ((rr.colinfo.get? c).isSome = true)) := by
  refine ⟨?_, ?_, ?_⟩
  · intro df k vals
    constructor
    · intro c hc
      show ((SASDataFrame.backfillColinfo (df.frame.setColList k vals).colNames df.colinfo).get? c).isSome = true
      rw [backfillColinfo_get?]
      cases hg : df.colinfo.get? c with
      | some sp => rfl
      | none =>
        have hc' : c ∈ (df.frame.setColList k vals).colNames := hc
        show ((if c ∈ (df.frame.setColList k vals).colNames then some (defaultSpec c) else none)).isSome = true
        rw [if_pos hc']
        rfl
    · intro c hc hnone
      show (SASDataFrame.backfillColinfo (df.frame.setColList k vals).colNames df.colinfo).get? c = some (defaultSpec c)
      rw [backfillColinfo_get?, hnone]
      have hc' : c ∈ (df.frame.setColList k vals).colNames := hc
      show (if c ∈ (df.frame.setColList k vals).colNames then some (defaultSpec c) else none) = some (defaultSpec c)
      rw [if_pos hc']
  · intro df loc k vals
    constructor
    · intro c hc
      show ((SASDataFrame.backfillColinfo (df.frame.insertCol loc k vals).colNames df.colinfo).get? c).isSome = true
      rw [backfillColinfo_get?]
      cases hg : df.colinfo.get? c with
      | some sp => rfl
      | none =>
        have hc' : c ∈ (df.frame.insertCol loc k vals).colNames := hc
        show ((if c ∈ (df.frame.insertCol loc k vals).colNames then some (defaultSpec c) else none)).isSome = true
        rw [if_pos hc']
        rfl
    · intro c hc hnone
      show (SASDataFrame.backfillColinfo (df.frame.insertCol loc k vals).colNames df.colinfo).get? c = some (defaultSpec c)
      rw [backfillColinfo_get?, hnone]
      have hc' : c ∈ (df.frame.insertCol loc k vals).colNames := hc
      show (if c ∈ (df.frame.insertCol loc k vals).colNames then some (defaultSpec c) else none) = some (defaultSpec c)
      rw [if_pos hc']
  · intro proto rest r hok hinv rr hrr
    subst hrr
    have hall : allSas ((proto :: rest).map TableLike.sas) = some (proto :: rest) :=
      allSas_map_sas _
    rw [List.map_cons] at hall
    rw [List.map_cons, swat_concat, hall] at hok
    have hrr2 : rr = concatSas (proto :: rest) proto := by
      cases hok
      rfl
    subst hrr2
    intro c hc
    have hcCols : c ∈ (proto :: rest).foldl (fun acc df => df.frame.colNames.foldl insertSeen acc) [] := by
      have := mem_colNames_getCols _ _ _ hc
      exact this
    have hEx : ∃ d ∈ proto :: rest, c ∈ d.frame.colNames := by
      rcases (mem_colsUnionFold (proto :: rest) [] c).mp hcCols with h | h
      · cases h
      · exact h
    have hUnion : c ∈ firstSeenUnion (((proto :: rest).map SASDataFrame.frame).map PDataFrame.colNames) := by
      rw [← columnsFold_eq_firstSeenUnion]
      exact hcCols
    show ((SDict.get? (concatSas (proto :: rest) proto).colinfo c).isSome = true)
    have hci : (concatSas (proto :: rest) proto).colinfo
        = (SASDataFrame.make (pdConcat ((proto :: rest).map SASDataFrame.frame))
            proto.name proto.label proto.title proto.formatter
            ((proto :: rest).foldl (fun acc df => SDict.updateWith acc df.attrs) [])
            ((proto :: rest).foldl (fun acc df => SDict.updateWith acc df.colinfo) [])).colinfo := rfl
    rw [hci, make_colinfo_get?]
    rw [if_pos (by rw [pdConcat_colNames]; exact hUnion)]
    rw [colinfoFold_isSome]
    rcases hEx with ⟨d, hd, hcd⟩
    have : (proto :: rest).any (fun e => (e.colinfo.get? c).isSome) = true :=
      List.any_eq_true.mpr ⟨d, hd, hinv d hd c hcd⟩
    rw [this]
    simp

/-- Witness for C5 at concrete inputs: assignment and insertion of a fresh
column backfill a default spec; concatenating two covered tables covers the
union column `C`. -/
theorem colinfo_invariant_witness :
    ((dfPop.setItem "B" [Value.int 2]).colinfo.get? "B").isSome = true
    ∧ (dfPop.setItem "B" [Value.int 2]).colinfo.get? "B" = some (defaultSpec "B")
    ∧ ((dfPop.insertAt 0 "C" [Value.int 3]).colinfo.get? "C").isSome = true
    ∧ ((SDict.get? (concatSas [dfCatA, dfCatB] dfCatA).colinfo "C").isSome = true) := by
  refine ⟨?_, ?_, ?_, ?_⟩
  · exact (colinfo_invariant.1 dfPop "B" [Value.int 2]).1 "B" (by decide)
  · exact (colinfo_invariant.1 dfPop "B" [Value.int 2]).2 "B" (by decide) (by rfl)
  · exact (colinfo_invariant.2.1 dfPop 0 "C" [Value.int 3]).1 "C" (by decide)
  · exact colinfo_invariant.2.2 dfCatA [dfCatB] (.sas (concatSas [dfCatA, dfCatB] dfCatA))
      (by rfl) (by decide) (concatSas [dfCatA, dfCatB] dfCatA) rfl "C" (by decide)


/-- A key with an entry in a two-entry dict is one of its two keys. -/
theorem keys_sub_two {α : Type} (a b : String) (sa sb : α) (k : String)
    (h : (SDict.get? [(a, sa), (b, sb)] k).isSome = true) : k = a ∨ k = b := by
  by_cases ha : a = k
  · exact Or.inl ha.symm
  · by_cases hb : b = k
    · exact Or.inr hb.symm
    · rw [show SDict.get? [(a, sa), (b, sb)] k = none from by simp [SDict.get?, ha, hb]] at h
      cases h

/-!  ## Claim C7: concat -/

/-- C7: `concat` delegates to plain `pd.concat` when the first element is not
a `SASDataFrame`; on a non-empty all-SAS sequence it takes
name/label/title/formatter from the first table, unions attrs and colinfo
with later entries overwriting earlier ones on key collision (colinfo then
re-filtered by the constructor to the columns present), and orders the
result's columns as the first-seen union of the inputs' column orders. -/
theorem concat_spec :
    (∀ (f : PDataFrame) (rest : List TableLike),
      swat_concat (.plain f :: rest)
        = .ok (.plain (pdConcat ((TableLike.plain f :: rest).map TableLike.toFrame))))
    ∧ (∀ (proto : SASDataFrame) (rest : List SASDataFrame),
        swat_concat ((proto :: rest).map TableLike.sas)
          = .ok (.sas (concatSas (proto :: rest) proto))
        ∧ (concatSas (proto :: rest) proto).name = proto.name
        ∧ (concatSas (proto :: rest) proto).label = proto.label
        ∧ (concatSas (proto :: rest) proto).title = proto.title
        ∧ (concatSas (proto :: rest) proto).formatter = proto.formatter
        ∧ (concatSas (proto :: rest) proto).frame.colNames
            = firstSeenUnion (((proto :: rest).map SASDataFrame.frame).map PDataFrame.colNames)
        ∧ (concatSas (proto :: rest) proto).attrs
            = (proto :: rest).foldl (fun acc df => SDict.updateWith acc df.attrs) []
        ∧ ((∀ d ∈ proto :: rest, ∀ k : String,
              ((d.colinfo.get? k).isSome = true) → k ∈ d.frame.colNames) →
           ∀ k : String, SDict.get? (concatSas (proto :: rest) proto).colinfo k
              = SDict.get? ((proto :: rest).foldl
                  (fun acc df => SDict.updateWith acc df.colinfo) []) k)) := by
  constructor
  · intro f rest
    rfl
  · intro proto rest
    have hall : allSas (TableLike.sas proto :: List.map TableLike.sas rest)
        = some (proto :: rest) := by
      have h := allSas_map_sas (proto :: rest)
      rwa [List.map_cons] at h
    have hcolsEq := columnsFold_eq_firstSeenUnion (proto :: rest)
    have hmemOk : ∀ n ∈ (proto :: rest).foldl
        (fun acc df => df.frame.colNames.foldl insertSeen acc) [],
        (PDataFrame.lookupCol (pdConcat ((proto :: rest).map SASDataFrame.frame)).cols n).isSome
          = true := by
      intro n hn
      apply lookupCol_pdConcat_isSome
      rw [← hcolsEq]
      exact hn
    refine ⟨?_, rfl, rfl, rfl, rfl, ?_, rfl, ?_⟩
    · rw [List.map_cons, swat_concat, hall]
    · show ((pdConcat ((proto :: rest).map SASDataFrame.frame)).getCols
          ((proto :: rest).foldl (fun acc df => df.frame.colNames.foldl insertSeen acc) [])).colNames
        = firstSeenUnion (((proto :: rest).map SASDataFrame.frame).map PDataFrame.colNames)
      exact (getCols_colNames_of_mem _ _ hmemOk).trans hcolsEq
    · intro hkeys k
      have hci : (concatSas (proto :: rest) proto).colinfo
          = (SASDataFrame.make (pdConcat ((proto :: rest).map SASDataFrame.frame))
              proto.name proto.label proto.title proto.formatter
              ((proto :: rest).foldl (fun acc df => SDict.updateWith acc df.attrs) [])
              ((proto :: rest).foldl (fun acc df => SDict.updateWith acc df.colinfo) [])).colinfo := rfl
      rw [hci, make_colinfo_get?]
      by_cases hk : k ∈ (pdConcat ((proto :: rest).map SASDataFrame.frame)).colNames
      · rw [if_pos hk]
      · rw [if_neg hk]
        cases hg : SDict.get?
            ((proto :: rest).foldl (fun acc df => SDict.updateWith acc df.colinfo) []) k with
        | none => rfl
        | some sp =>
          exfalso
          have hsome : ((SDict.get? ((proto :: rest).foldl
              (fun acc df => SDict.updateWith acc df.colinfo) []) k).isSome = true) := by
            rw [hg]; rfl
          rw [colinfoFold_isSome] at hsome
          have h0 : (SDict.get? ([] : SDict SASColumnSpec) k) = none := rfl
          rw [h0] at hsome
          simp only [Option.isSome_none, Bool.false_or, List.any_eq_true] at hsome
          rcases hsome with ⟨d, hd, hds⟩
          have hkd := hkeys d hd k hds
          apply hk
          rw [pdConcat_colNames, ← columnsFold_eq_firstSeenUnion]
          exact (mem_colsUnionFold (proto :: rest) [] k).mpr (Or.inr ⟨d, hd, hkd⟩)

/-- Witness for C7 at concrete inputs. -/
theorem concat_spec_witness :
    swat_concat [TableLike.plain ⟨1, [], [("Z", [Value.int 0])]⟩]
      = .ok (.plain (pdConcat ([TableLike.plain ⟨1, [], [("Z", [Value.int 0])]⟩].map TableLike.toFrame)))
    ∧ swat_concat [TableLike.sas dfCatA, TableLike.sas dfCatB]
        = .ok (.sas (concatSas [dfCatA, dfCatB] dfCatA))
    ∧ (concatSas [dfCatA, dfCatB] dfCatA).frame.colNames
        = firstSeenUnion (([dfCatA, dfCatB].map SASDataFrame.frame).map PDataFrame.colNames)
    ∧ SDict.get? (concatSas [dfCatA, dfCatB] dfCatA).colinfo "C"
        = SDict.get? ([dfCatA, dfCatB].foldl
            (fun acc df => SDict.updateWith acc df.colinfo) []) "C" := by
  refine ⟨concat_spec.1 _ [], ?_, ?_, ?_⟩
  · exact (concat_spec.2 dfCatA [dfCatB]).1
  · exact (concat_spec.2 dfCatA [dfCatB]).2.2.2.2.2.1
  · refine (concat_spec.2 dfCatA [dfCatB]).2.2.2.2.2.2.2 ?_ "C"
    intro d hd k hk
    rcases List.mem_cons.mp hd with h1 | hd2
    · subst h1
      rcases keys_sub_two "A" "B" (defaultSpec "A") (defaultSpec "B") k hk with rfl | rfl
      · decide
      · decide
    · rcases List.mem_cons.mp hd2 with h2 | h3
      · subst h2
        rcases keys_sub_two "B" "C" (defaultSpec "B") (defaultSpec "C") k hk with rfl | rfl
        · decide
        · decide
      · cases h3


/-!  ## Claim C9: derived tables own their metadata dicts -/

theorem readAt_append {α : Type} (st : List (SDict α)) (d : SDict α) (r : Nat)
    (h : r < st.length) : readAt (st ++ [d]) r = readAt st r := by
  unfold readAt
  rw [List.getElem?_append, if_pos h]

theorem readAt_writeAt_ne {α : Type} (st : List (SDict α)) (r r' : Nat) (d : SDict α)
    (h : r ≠ r') : readAt (writeAt st r d) r' = readAt st r' := by
  unfold readAt writeAt
  rw [List.getElem?_set_ne h]

/-- C9: `__getitem__` and `reshape_bygroups` give the derived table fresh
copies of the dict-valued metadata (`colinfo`, `attrs`): the derived table's
references differ from the parent's, the operations themselves leave the
parent's cells untouched (including the attrs updates `reshape_bygroups`
performs, which all land in the fresh cells), and any later write through the
derived references leaves the parent's contents unchanged. -/
theorem metadata_copy_independence :
    (∀ (df : SASDataFrameRef) (names : List String) (m : Mem),
      df.attrsRef < m.attrsStore.length →
      df.colinfoRef < m.colinfoStore.length →
      (getItemColsRef df names m).1.attrsRef ≠ df.attrsRef
      ∧ (getItemColsRef df names m).1.colinfoRef ≠ df.colinfoRef
      ∧ (getItemColsRef df names m).2.readAttrs df.attrsRef = m.readAttrs df.attrsRef
      ∧ (getItemColsRef df names m).2.readColinfo df.colinfoRef = m.readColinfo df.colinfoRef
      ∧ (∀ d, (((getItemColsRef df names m).2.writeAttrs
            (getItemColsRef df names m).1.attrsRef d).readAttrs df.attrsRef)
          = m.readAttrs df.attrsRef)
      ∧ (∀ d, (((getItemColsRef df names m).2.writeColinfo
            (getItemColsRef df names m).1.colinfoRef d).readColinfo df.colinfoRef)
          = m.readColinfo df.colinfoRef))
    ∧ (∀ (df : SASDataFrameRef) (req : String) (idx : Bool) (fsfx csfx : String)
        (m : Mem) (r : SASDataFrameRef) (m' : Mem),
      df.attrsRef < m.attrsStore.length →
      df.colinfoRef < m.colinfoStore.length →
      reshape_bygroupsRef df req idx fsfx csfx m = .ok (r, m') →
      r.attrsRef ≠ df.attrsRef ∧ r.colinfoRef ≠ df.colinfoRef
      ∧ m'.readAttrs df.attrsRef = m.readAttrs df.attrsRef
      ∧ m'.readColinfo df.colinfoRef = m.readColinfo df.colinfoRef) := by
  constructor
  · intro df names m hA hC
    refine ⟨Nat.ne_of_gt hA, Nat.ne_of_gt hC, ?_, ?_, ?_, ?_⟩
    · exact readAt_append _ _ _ hA
    · exact readAt_append _ _ _ hC
    · intro d
      show readAt (writeAt (m.attrsStore ++ [m.readAttrs df.attrsRef]) m.attrsStore.length d)
          df.attrsRef = readAt m.attrsStore df.attrsRef
      rw [readAt_writeAt_ne _ _ _ _ (Nat.ne_of_gt hA), readAt_append _ _ _ hA]
    · intro d
      show readAt (writeAt (m.colinfoStore ++ [m.readColinfo df.colinfoRef])
          m.colinfoStore.length d) df.colinfoRef = readAt m.colinfoStore df.colinfoRef
      rw [readAt_writeAt_ne _ _ _ _ (Nat.ne_of_gt hC), readAt_append _ _ _ hC]
  · intro df req idx fsfx csfx m r m' hA hC hok
    unfold reshape_bygroupsRef at hok
    cases hr : SASDataFrame.reshape_bygroups (df.deref m) req idx fsfx csfx with
    | error e =>
      rw [hr] at hok
      cases hok
    | ok r0 =>
      rw [hr] at hok
      cases hok
      dsimp only [getItemColsRef, Mem.allocAttrs, Mem.allocColinfo, Mem.readAttrs,
        Mem.readColinfo, Mem.writeAttrs, Mem.writeColinfo]
      refine ⟨?_, ?_, ?_, ?_⟩
      · simp only [List.length_append]
        omega
      · simp only [List.length_append]
        omega
      · rw [readAt_writeAt_ne _ _ _ _ (by simp only [List.length_append]; omega),
            readAt_append _ _ _ (by simp only [List.length_append]; omega),
            readAt_append _ _ _ hA]
      · rw [readAt_writeAt_ne _ _ _ _ (by simp only [List.length_append]; omega),
            readAt_append _ _ _ (by simp only [List.length_append]; omega),
            readAt_append _ _ _ hC]

/-- Witness for C9 at a concrete store: the derived references are fresh and
the parent's cells are untouched by the reshape. -/
theorem metadata_copy_independence_witness :
    ((getItemColsRef dfRefEx ["A"] memEx).1.attrsRef ≠ dfRefEx.attrsRef)
    ∧ ((getItemColsRef dfRefEx ["A"] memEx).1.colinfoRef ≠ dfRefEx.colinfoRef)
    ∧ (mExOut.readAttrs dfRefEx.attrsRef = memEx.readAttrs dfRefEx.attrsRef)
    ∧ (mExOut.readColinfo dfRefEx.colinfoRef = memEx.readColinfo dfRefEx.colinfoRef) := by
  have h1 := metadata_copy_independence.1 dfRefEx ["A"] memEx (by decide) (by decide)
  have h2 := metadata_copy_independence.2 dfRefEx "raw" false "_f" "_by" memEx rExOut mExOut
    (by decide) (by decide) (by rfl)
  exact ⟨h1.1, h1.2.1, h2.2.2.1, h2.2.2.2⟩


/-!  ## Claims C6 and C10: collision handling in the columns branch -/

theorem setColList_of_none (f : PDataFrame) (k : String) (vals : List Value)
    (h : PDataFrame.lookupCol f.cols k = none) :
    f.setColList k vals = ⟨f.nrows, f.index, f.cols ++ [(k, vals)]⟩ := by
  unfold PDataFrame.setColList
  rw [h]
  rfl

theorem map_fst_replace (cols : List (String × List Value)) (k : String) (vals : List Value) :
    (cols.map (fun c => if c.1 = k then (c.1, vals) else c)).map Prod.fst
      = cols.map Prod.fst := by
  induction cols with
  | nil => rfl
  | cons c t ih =>
    by_cases hc : c.1 = k <;> simp [hc, ih]

theorem colNames_setColList_mem (f : PDataFrame) (k : String) (vals : List Value)
    (n : String) (h : n ∈ f.cols.map Prod.fst) :
    n ∈ (f.setColList k vals).cols.map Prod.fst := by
  unfold PDataFrame.setColList
  by_cases hk : (PDataFrame.lookupCol f.cols k).isSome
  · rw [if_pos hk]
    show n ∈ (f.cols.map (fun c => if c.1 = k then (c.1, vals) else c)).map Prod.fst
    rw [map_fst_replace]
    exact h
  · rw [if_neg hk]
    show n ∈ (f.cols ++ [(k, vals)]).map Prod.fst
    rw [List.map_append]
    exact List.mem_append_left _ h

theorem self_mem_setColList (f : PDataFrame) (k : String) (vals : List Value) :
    k ∈ (f.setColList k vals).cols.map Prod.fst := by
  unfold PDataFrame.setColList
  by_cases hk : (PDataFrame.lookupCol f.cols k).isSome
  · rw [if_pos hk]
    show k ∈ (f.cols.map (fun c => if c.1 = k then (c.1, vals) else c)).map Prod.fst
    rw [map_fst_replace]
    exact (lookupCol_isSome_iff _ _).mp hk
  · rw [if_neg hk]
    show k ∈ (f.cols ++ [(k, vals)]).map Prod.fst
    simp

theorem lookupCol_append_of_mem (cols l2 : List (String × List Value)) (n : String)
    (h : n ∈ cols.map Prod.fst) :
    PDataFrame.lookupCol (cols ++ l2) n = PDataFrame.lookupCol cols n := by
  rw [lookupCol_append]
  cases hl : PDataFrame.lookupCol cols n with
  | none =>
    exfalso
    have := (lookupCol_isSome_iff cols n).mpr h
    rw [hl] at this
    cases this
  | some c => rfl

/-- Selecting a freshly appended column and then the original self-selecting
columns materializes the new column in front and keeps the originals. -/
theorem getCols_after_append (nrows : Nat) (idxl : List (Option String × List Value))
    (cols : List (String × List Value)) (m : String) (d : List Value)
    (hm : ¬ m ∈ cols.map Prod.fst)
    (hid : PDataFrame.getCols ⟨nrows, idxl, cols⟩ (List.map Prod.fst cols)
      = ⟨nrows, idxl, cols⟩) :
    PDataFrame.getCols ⟨nrows, idxl, cols ++ [(m, d)]⟩ (m :: List.map Prod.fst cols)
      = ⟨nrows, idxl, (m, d) :: cols⟩ := by
  have hcols : (List.map Prod.fst cols).filterMap
      (fun n => (PDataFrame.lookupCol cols n).map (fun c => (n, c.2))) = cols :=
    congrArg PDataFrame.cols hid
  show PDataFrame.mk nrows idxl ((m :: List.map Prod.fst cols).filterMap
      (fun n => (PDataFrame.lookupCol (cols ++ [(m, d)]) n).map (fun c => (n, c.2))))
    = ⟨nrows, idxl, (m, d) :: cols⟩
  have hhead : (PDataFrame.lookupCol (cols ++ [(m, d)]) m).map (fun c => (m, c.2))
      = some (m, d) := by
    rw [lookupCol_append, lookupCol_eq_none cols m hm]
    simp [PDataFrame.lookupCol]
  have hcongr : (List.map Prod.fst cols).filterMap
      (fun n => (PDataFrame.lookupCol (cols ++ [(m, d)]) n).map (fun c => (n, c.2)))
      = (List.map Prod.fst cols).filterMap
        (fun n => (PDataFrame.lookupCol cols n).map (fun c => (n, c.2))) := by
    apply List.filterMap_congr
    intro n hn
    rw [lookupCol_append_of_mem cols [(m, d)] n hn]
  rw [List.filterMap_cons, hhead, hcongr, hcols]

/-- C6: on a table in `attributes` mode whose By variable `X` collides with
an existing data column `X`, reshaping to raw columns materializes a new
leading column `X ++ collision_suffix` holding the By value, and leaves every
original column — including `X` — untouched. -/
theorem reshape_collision_raw (nrows : Nat) (idxl : List (Option String × List Value))
    (cols : List (String × List Value)) (X : String) (v fv : Value) (dt : String)
    (ci : SDict SASColumnSpec) (nm lb tt : Option String) (fm : Nat) (fsfx csfx : String)
    (hX : X.isEmpty = false)
    (hmem : X ∈ List.map Prod.fst cols)
    (hfresh : ¬ (X ++ csfx) ∈ List.map Prod.fst cols)
    (hdt : dtype_from_var v = some dt)
    (hid : PDataFrame.getCols ⟨nrows, idxl, cols⟩ (List.map Prod.fst cols)
      = ⟨nrows, idxl, cols⟩) :
    (SASDataFrame.reshape_bygroups
        ⟨⟨nrows, idxl, cols⟩, ci, nm, lb, tt,
         [("ByVar1", Value.str X), ("ByVar1Value", v), ("ByVar1ValueFormatted", fv),
          ("ByGroupMode", Value.str "attributes"), ("ByGroupColumns", Value.str "none")], fm⟩
        "raw" false fsfx csfx).map (fun r => (r.frame.cols, r.frame.index))
      = .ok ((X ++ csfx, List.replicate nrows v) :: cols, idxl) := by
  have hlk := lookupCol_eq_none cols (X ++ csfx) hfresh
  have hset : PDataFrame.setColList ⟨nrows, idxl, cols⟩ (X ++ csfx) (List.replicate nrows v)
      = ⟨nrows, idxl, cols ++ [(X ++ csfx, List.replicate nrows v)]⟩ :=
    setColList_of_none _ _ _ hlk
  have hGC := getCols_after_append nrows idxl cols (X ++ csfx) (List.replicate nrows v)
    hfresh hid
  simp [SASDataFrame.reshape_bygroups, SASDataFrame.getItemCols, PDataFrame.colNames,
    truthyOpt, Value.truthy, hX, SDict.setdefault, SDict.contains, SDict.get?, valEqStrOpt,
    scanByVars, SDict.size, scanStep, Value.asStr, SDict.erase, SDict.set,
    buildColumns, buildColumnsLoop, buildColumnsStep, labelOf, fmtOf,
    SASDataFrame.setItemScalar, PDataFrame.setCol, bind, Except.bind, pure, Except.pure,
    hdt, hmem, hfresh, hid, hset,
    show ("ByVar" ++ toString (1 : Nat) : String) = "ByVar1" from rfl,
    show ("ByVar" ++ toString (2 : Nat) : String) = "ByVar2" from rfl,
    Except.map, hGC]

/-- Witness for C6: `dfColl`-shaped table (By variable `X`, data columns
`X` and `B`) reshaped to raw columns. -/
theorem reshape_collision_raw_witness :
    (SASDataFrame.reshape_bygroups
        ⟨⟨1, [], [("X", [Value.int 9]), ("B", [Value.int 7])]⟩, [], none, none, none,
         [("ByVar1", Value.str "X"), ("ByVar1Value", Value.int 5),
          ("ByVar1ValueFormatted", Value.str "5"),
          ("ByGroupMode", Value.str "attributes"), ("ByGroupColumns", Value.str "none")], 0⟩
        "raw" false "_f" "_by").map (fun r => (r.frame.cols, r.frame.index))
      = .ok (("X" ++ "_by", List.replicate 1 (Value.int 5))
          :: [("X", [Value.int 9]), ("B", [Value.int 7])], []) :=
  reshape_collision_raw 1 [] [("X", [Value.int 9]), ("B", [Value.int 7])] "X"
    (Value.int 5) (Value.str "5") "int64" [] none none none 0 "_f" "_by"
    (by decide) (by decide) (by decide) (by rfl) (by rfl)

/-- The first two selected column names are the first two requested ones,
whenever both lookups succeed. -/
theorem getCols_colNames_take2 (f : PDataFrame) (n1 n2 : String) (rest : List String)
    (h1 : (PDataFrame.lookupCol f.cols n1).isSome = true)
    (h2 : (PDataFrame.lookupCol f.cols n2).isSome = true) :
    (((f.getCols (n1 :: n2 :: rest)).cols.map Prod.fst).take 2) = [n1, n2] := by
  cases hl1 : PDataFrame.lookupCol f.cols n1 with
  | none => rw [hl1] at h1; cases h1
  | some c1 =>
    cases hl2 : PDataFrame.lookupCol f.cols n2 with
    | none => rw [hl2] at h2; cases h2
    | some c2 =>
      show (((n1 :: n2 :: rest).filterMap
          (fun n => (PDataFrame.lookupCol f.cols n).map (fun c => (n, c.2)))).map
            Prod.fst).take 2 = [n1, n2]
      rw [List.filterMap_cons, hl1, List.filterMap_cons, hl2]
      rfl

/-- C10: in the `'both'` columns branch the formatted column's name is the
final raw name — including any collision suffix already applied to it — plus
the formatted suffix: a raw collision on `X` yields the formatted name
`X ++ collision_suffix ++ formatted_suffix`.  No hypothesis constrains
whether that formatted name itself collides with a data column: the branch
performs no independent collision check for it. -/
theorem reshape_both_formatted_suffix (nrows : Nat) (idxl : List (Option String × List Value))
    (cols : List (String × List Value)) (X : String) (v fv : Value) (dt : String)
    (ci : SDict SASColumnSpec) (nm lb tt : Option String) (fm : Nat) (fsfx csfx : String)
    (hX : X.isEmpty = false)
    (hmem : X ∈ List.map Prod.fst cols)
    (hfresh : ¬ (X ++ csfx) ∈ List.map Prod.fst cols)
    (hdt : dtype_from_var v = some dt)
    (hid : PDataFrame.getCols ⟨nrows, idxl, cols⟩ (List.map Prod.fst cols)
      = ⟨nrows, idxl, cols⟩) :
    (SASDataFrame.reshape_bygroups
        ⟨⟨nrows, idxl, cols⟩, ci, nm, lb, tt,
         [("ByVar1", Value.str X), ("ByVar1Value", v), ("ByVar1ValueFormatted", fv),
          ("ByGroupMode", Value.str "attributes"), ("ByGroupColumns", Value.str "none")], fm⟩
        "both" false fsfx csfx).map (fun r => (r.frame.cols.map Prod.fst).take 2)
      = .ok [X ++ csfx, X ++ csfx ++ fsfx] := by
  have hlk := lookupCol_eq_none cols (X ++ csfx) hfresh
  have hset : PDataFrame.setColList ⟨nrows, idxl, cols⟩ (X ++ csfx) (List.replicate nrows v)
      = ⟨nrows, idxl, cols ++ [(X ++ csfx, List.replicate nrows v)]⟩ :=
    setColList_of_none _ _ _ hlk
  have hmem1 : (X ++ csfx) ∈ (PDataFrame.mk nrows idxl
      (cols ++ [(X ++ csfx, List.replicate nrows v)])).cols.map Prod.fst := by
    simp
  have h1 : (PDataFrame.lookupCol
      ((PDataFrame.setColList ⟨nrows, idxl, cols ++ [(X ++ csfx, List.replicate nrows v)]⟩
        (X ++ csfx ++ fsfx) (List.replicate nrows fv)).cols) (X ++ csfx)).isSome = true := by
    rw [lookupCol_isSome_iff]
    exact colNames_setColList_mem _ _ _ _ hmem1
  have h2 : (PDataFrame.lookupCol
      ((PDataFrame.setColList ⟨nrows, idxl, cols ++ [(X ++ csfx, List.replicate nrows v)]⟩
        (X ++ csfx ++ fsfx) (List.replicate nrows fv)).cols) (X ++ csfx ++ fsfx)).isSome
      = true := by
    rw [lookupCol_isSome_iff]
    exact self_mem_setColList _ _ _
  have htake := getCols_colNames_take2
    (PDataFrame.setColList ⟨nrows, idxl, cols ++ [(X ++ csfx, List.replicate nrows v)]⟩
      (X ++ csfx ++ fsfx) (List.replicate nrows fv))
    (X ++ csfx) (X ++ csfx ++ fsfx) (List.map Prod.fst cols) h1 h2
  simp [SASDataFrame.reshape_bygroups, SASDataFrame.getItemCols, PDataFrame.colNames,
    truthyOpt, Value.truthy, hX, SDict.setdefault, SDict.contains, SDict.get?, valEqStrOpt,
    scanByVars, SDict.size, scanStep, Value.asStr, SDict.erase, SDict.set,
    buildColumns, buildColumnsLoop, buildColumnsStep, labelOf, fmtOf,
    SASDataFrame.setItemScalar, PDataFrame.setCol, bind, Except.bind, pure, Except.pure,
    hdt, hmem, hfresh, hid, hset,
    show ("ByVar" ++ toString (1 : Nat) : String) = "ByVar1" from rfl,
    show ("ByVar" ++ toString (2 : Nat) : String) = "ByVar2" from rfl,
    Except.map, htake]

/-- Witness for C10, including an instantiation where the formatted name
`X_by_f` itself already exists as a data column and is still used unchanged. -/
theorem reshape_both_formatted_suffix_witness :
    (SASDataFrame.reshape_bygroups
        ⟨⟨1, [], [("X", [Value.int 9]), ("B", [Value.int 7])]⟩, [], none, none, none,
         [("ByVar1", Value.str "X"), ("ByVar1Value", Value.int 5),
          ("ByVar1ValueFormatted", Value.str "5"),
          ("ByGroupMode", Value.str "attributes"), ("ByGroupColumns", Value.str "none")], 0⟩
        "both" false "_f" "_by").map (fun r => (r.frame.cols.map Prod.fst).take 2)
      = .ok ["X" ++ "_by", "X" ++ "_by" ++ "_f"]
    ∧ (SASDataFrame.reshape_bygroups
        ⟨⟨1, [], [("X", [Value.int 9]), ("X_by_f", [Value.int 7])]⟩, [], none, none, none,
         [("ByVar1", Value.str "X"), ("ByVar1Value", Value.int 5),
          ("ByVar1ValueFormatted", Value.str "5"),
          ("ByGroupMode", Value.str "attributes"), ("ByGroupColumns", Value.str "none")], 0⟩
        "both" false "_f" "_by").map (fun r => (r.frame.cols.map Prod.fst).take 2)
      = .ok ["X" ++ "_by", "X" ++ "_by" ++ "_f"] := by
  constructor
  · exact reshape_both_formatted_suffix 1 [] [("X", [Value.int 9]), ("B", [Value.int 7])] "X"
      (Value.int 5) (Value.str "5") "int64" [] none none none 0 "_f" "_by"
      (by decide) (by decide) (by decide) (by rfl) (by rfl)
  · exact reshape_both_formatted_suffix 1 [] [("X", [Value.int 9]), ("X_by_f", [Value.int 7])] "X"
      (Value.int 5) (Value.str "5") "int64" [] none none none 0 "_f" "_by"
      (by decide) (by decide) (by decide) (by rfl) (by rfl)

end Swat
